import Mathlib

/-!
Verification development for the EPUB chapter-boundary resolution engine
(epub_exporter.py, the v1 assembler, and epub_exporter_v2.py, the v2
assembler).  Documents are modelled as lists of characters; every regular
expression used by the source is embedded as an executable matcher with the
same leftmost-match semantics; archives are modelled as a structure holding
the navigation tree, the spine and the manifest items.  Decode failures of
resource bytes are modelled by an optional decoded content field, and the
v1 navigation path (which does not catch decode errors) is embedded in the
Except monad.
-/

namespace EpubExport

/-- Convert a string literal to the list-of-characters document model. -/
def str (s : String) : List Char := s.data

/-- The single-quote character (written via its code point). -/
def quoteS : Char := Char.ofNat 39

/-- Whitespace set of Python str.strip and of the regex class backslash-s
(space, tab, newline, carriage return, vertical tab, form feed). -/
def isWS (c : Char) : Bool :=
  c == ' ' || c == '\t' || c == '\n' || c == '\r' || c == '\x0b' || c == '\x0c'

/-- Python str.strip: drop leading and trailing whitespace. -/
def trimWS (cs : List Char) : List Char :=
  (((cs.dropWhile isWS).reverse).dropWhile isWS).reverse

/-- Python slice content[s:e] on the character list. -/
def sliceList (cs : List Char) (s e : Nat) : List Char :=
  (cs.drop s).take (e - s)

/-- Case-sensitive prefix test (Python str.startswith). -/
def startsWithChars : List Char → List Char → Bool
  | [], _ => true
  | _ :: _, [] => false
  | p :: ps, c :: cs => p == c && startsWithChars ps cs

/-- Case-insensitive prefix test; the pattern is given in lower case
(models a literal matched under re.IGNORECASE). -/
def startsWithCI : List Char → List Char → Bool
  | [], _ => true
  | _ :: _, [] => false
  | p :: ps, c :: cs => p == c.toLower && startsWithCI ps cs

/-- Drop a case-insensitive literal prefix, or fail. -/
def dropCIPre (pat cs : List Char) : Option (List Char) :=
  if startsWithCI pat cs then some (cs.drop pat.length) else none

/-- Index of the first occurrence of a character. -/
def findCharIdx (c : Char) : List Char → Option Nat
  | [] => none
  | x :: xs => if x == c then some 0 else (findCharIdx c xs).map (· + 1)

/-- Is the character one of the two quote characters of the regex class
[quote apostrophe]. -/
def isQuote (c : Char) : Bool := c == '"' || c == quoteS

/-- Scan for the first position (0-based, positions 0..len) at which the
predicate holds of the remaining suffix; models re.search match start. -/
def findFirstAux (p : List Char → Bool) : List Char → Nat → Option Nat
  | [], i => if p [] then some i else none
  | c :: rest, i => if p (c :: rest) then some i else findFirstAux p rest (i + 1)

/-- First match-start position of a suffix predicate (re.search). -/
def findFirst (p : List Char → Bool) (cs : List Char) : Option Nat :=
  findFirstAux p cs 0

/-- Decimal digit character of a value below ten. -/
def digitChar (d : Nat) : Char := Char.ofNat (48 + d)

/-- Fuelled decimal-digit expansion; fuel equal to the number itself always
covers the digit count. -/
def natToCharsAux : Nat → Nat → List Char
  | 0, n => [digitChar (n % 10)]
  | fuel + 1, n =>
    if n < 10 then [digitChar n]
    else natToCharsAux fuel (n / 10) ++ [digitChar (n % 10)]

/-- Decimal representation of a natural number as characters. -/
def natToChars (n : Nat) : List Char := natToCharsAux n n

/-! ### Embedded regular-expression matchers

Each matcher decides whether the corresponding Python pattern matches at the
start of the given suffix (re.IGNORECASE throughout).  Optional trailing
quote groups never constrain match existence and the value of match.start,
so matchers only check the constraining part, exactly as the regex engine
would when deciding whether a match begins at a position. -/

/-- Attribute-value tail of the filepos anchor pattern: optional quote, then
the (lower-cased) anchor literal, then the always-satisfiable optional
closing quote. -/
def attrVal (anchorL : List Char) : Option (List Char) → Bool
  | none => false
  | some rest =>
    (match rest with
     | q :: rest2 => isQuote q && startsWithCI anchorL rest2
     | [] => false)
    || startsWithCI anchorL rest

/-- Pattern (?:id|name)=["quote]?ANCHOR["quote]? of _extract_by_filepos,
matched at the start of the suffix. -/
def matchAnchorAttrAt (anchorL : List Char) (cs : List Char) : Bool :=
  attrVal anchorL (dropCIPre (str "id=") cs)
    || attrVal anchorL (dropCIPre (str "name=") cs)

/-- First match start of the filepos anchor pattern in the document
(re.search in _extract_by_filepos). -/
def findAnchorPos (content anchor : List Char) : Option Nat :=
  findFirst (matchAnchorAttrAt (anchor.map Char.toLower)) content

/-- Heading open-tag pattern of levels one to four: <h[1-4][^>]*> . -/
def matchHeadingOpenAt : List Char → Bool
  | '<' :: h :: d :: rest =>
    h.toLower == 'h' && (d == '1' || d == '2' || d == '3' || d == '4')
      && rest.contains '>'
  | _ => false

/-- Heading open-tag pattern <h[1-4][^>]*> matched case-sensitively: the
next-heading search of _extract_by_id_anchor passes no re.IGNORECASE flag,
unlike every other heading search of the source. -/
def matchHeadingOpenCSAt : List Char → Bool
  | '<' :: h :: d :: rest =>
    h == 'h' && (d == '1' || d == '2' || d == '3' || d == '4')
      && rest.contains '>'
  | _ => false

/-- The digits-after-filepos tail of the pattern id=["quote]?filepos\d+ . -/
def fileposDigits (cs : List Char) : Bool :=
  match dropCIPre (str "filepos") cs with
  | none => false
  | some rest =>
    match rest with
    | d :: _ => d.isDigit
    | [] => false

/-- Pattern id=["quote]?filepos\d+["quote]? used as a heuristic section
boundary in _extract_by_filepos. -/
def matchFileposIdAt (cs : List Char) : Bool :=
  match dropCIPre (str "id=") cs with
  | none => false
  | some rest =>
    fileposDigits rest
      || (match rest with
          | q :: rest2 => isQuote q && fileposDigits rest2
          | [] => false)

/-- After the class value: [^quote]*["quote] then [^>]*> ; the character
class before the closing quote cannot cross a quote, so the closing quote
is the first quote of the remainder, after which a later > must exist. -/
def divAfterChapterWord : List Char → Bool
  | [] => false
  | c :: rest =>
    if isQuote c then rest.contains '>'
    else divAfterChapterWord rest

/-- Inside the quoted class value: [^quote]*chapter, trying the literal at
every position reachable without crossing a quote. -/
def divClassValue : List Char → Bool
  | [] => false
  | c :: rest =>
    (startsWithCI (str "chapter") (c :: rest)
        && divAfterChapterWord ((c :: rest).drop 7))
      || (if isQuote c then false else divClassValue rest)

/-- After class= : an opening quote, then the quoted value containing the
substring chapter. -/
def divAfterClassEq : List Char → Bool
  | q :: rest => isQuote q && divClassValue rest
  | [] => false

/-- Inside the div tag: [^>]*class= , trying the literal class= at every
position reachable without crossing > . -/
def divScanClassAttr : List Char → Bool
  | [] => false
  | c :: rest =>
    if c == '>' then false
    else
      (match dropCIPre (str "class=") (c :: rest) with
       | some r => divAfterClassEq r
       | none => false)
      || divScanClassAttr rest

/-- Pattern <div[^>]*class=["quote][^"quote]*chapter[^"quote]*["quote][^>]*>
used as a heuristic section boundary in _extract_by_filepos. -/
def matchDivChapterAt (cs : List Char) : Bool :=
  match dropCIPre (str "<div") cs with
  | none => false
  | some rest => divScanClassAttr rest

/-- Is the digit character an allowed heading level (1..maxL)? -/
def isLevelDigit (maxL : Nat) (c : Char) : Bool :=
  (str "123456").take maxL |>.contains c

/-- Closing heading tag </h d > at the start of the suffix; with backref the
level digit must equal the opening digit (pattern backslash-1), otherwise
any digit of the allowed range (pattern </h[1-maxL]>). -/
def matchCloseHAt (maxL : Nat) (backref : Bool) (d : Char) : List Char → Bool
  | '<' :: sl :: h :: d2 :: gt :: _ =>
    sl == '/' && h.toLower == 'h'
      && (if backref then d2 == d else isLevelDigit maxL d2)
      && gt == '>'
  | _ => false

/-- Full heading-element pattern <h[1-maxL][^>]*>(.*?)</h...> matched at the
start of the suffix under re.IGNORECASE and re.DOTALL.  The greedy class
[^>]* cannot cross > , so the open tag ends at the first > ; the lazy body
ends at the earliest closing tag.  Returns (match length, (level digit,
group: the body between the tags)). -/
def matchHElemAt (maxL : Nat) (backref : Bool) : List Char → Option (Nat × Char × List Char)
  | c0 :: h :: d :: rest =>
    if c0 == '<' && h.toLower == 'h' && isLevelDigit maxL d then
      match findCharIdx '>' rest with
      | none => none
      | some p =>
        let body := rest.drop (p + 1)
        match findFirst (matchCloseHAt maxL backref d) body with
        | none => none
        | some j => some (3 + (p + 1) + j + 5, d, body.take j)
    else none
  | _ => none

/-- Title-element pattern <title[^>]*>(.*?)</title> matched at the start of
the suffix; returns (match length, (dummy level, group)). -/
def matchTitleElemAt : List Char → Option (Nat × Char × List Char)
  | '<' :: rest0 =>
    (match dropCIPre (str "title") rest0 with
     | none => none
     | some rest =>
       match findCharIdx '>' rest with
       | none => none
       | some p =>
         let body := rest.drop (p + 1)
         match findFirst (fun cs => startsWithCI (str "</title>") cs) body with
         | none => none
         | some j => some (1 + 5 + (p + 1) + j + 8, 't', body.take j))
  | _ => none

/-- Fuelled scanner behind re.finditer: collect non-overlapping leftmost
matches, recording (start, length, payload) and resuming after each match.
Every matcher used here consumes at least one character, so fuel equal to
the text length plus one always suffices. -/
def finditerAux (m : List Char → Option (Nat × Char × List Char)) :
    Nat → List Char → Nat → List (Nat × Nat × Char × List Char)
  | 0, _, _ => []
  | _, [], _ => []
  | fuel + 1, c :: rest, i =>
    match m (c :: rest) with
    | some (len, d, g) =>
      (i, len, d, g) :: finditerAux m fuel ((c :: rest).drop len) (i + len)
    | none => finditerAux m fuel rest (i + 1)

/-- re.finditer over the whole text: list of (start, length, payload). -/
def finditer (m : List Char → Option (Nat × Char × List Char)) (cs : List Char) :
    List (Nat × Nat × Char × List Char) :=
  finditerAux m (cs.length + 1) cs 0

/-- First match of an element matcher anywhere in the text (re.search with
groups); returns (start, length, payload). -/
def findFirstMatchAux (m : List Char → Option (Nat × Char × List Char)) :
    List Char → Nat → Option (Nat × Nat × Char × List Char)
  | [], _ => none
  | c :: rest, i =>
    match m (c :: rest) with
    | some (len, d, g) => some (i, len, d, g)
    | none => findFirstMatchAux m rest (i + 1)

/-- First match of an element matcher (re.search). -/
def findFirstMatch (m : List Char → Option (Nat × Char × List Char)) (cs : List Char) :
    Option (Nat × Nat × Char × List Char) :=
  findFirstMatchAux m cs 0

/-! ### Text transformers used by title extraction and the re-splitter -/

/-- Fuelled re.sub of the tag pattern <[^>]+> with the empty string: a tag
runs from < to the next > with at least one character in between. -/
def stripTagsAux : Nat → List Char → List Char
  | 0, cs => cs
  | _, [] => []
  | fuel + 1, '<' :: rest =>
    (match findCharIdx '>' rest with
     | some k =>
       if 1 ≤ k then stripTagsAux fuel (rest.drop (k + 1))
       else '<' :: stripTagsAux fuel rest
     | none => '<' :: stripTagsAux fuel rest)
  | fuel + 1, c :: rest => c :: stripTagsAux fuel rest

/-- re.sub removing every tag <[^>]+> (used on heading texts and by the
text-pattern splitter). -/
def stripTags (cs : List Char) : List Char := stripTagsAux (cs.length + 1) cs

/-- Fuelled re.sub of the tag pattern <[^>]+> with a newline (first step of
the text-pattern splitter). -/
def tagToNewlineAux : Nat → List Char → List Char
  | 0, cs => cs
  | _, [] => []
  | fuel + 1, '<' :: rest =>
    (match findCharIdx '>' rest with
     | some k =>
       if 1 ≤ k then '\n' :: tagToNewlineAux fuel (rest.drop (k + 1))
       else '<' :: tagToNewlineAux fuel rest
     | none => '<' :: tagToNewlineAux fuel rest)
  | fuel + 1, c :: rest => c :: tagToNewlineAux fuel rest

/-- re.sub replacing every tag <[^>]+> by a newline. -/
def tagToNewline (cs : List Char) : List Char := tagToNewlineAux (cs.length + 1) cs

/-- Fuelled re.sub collapsing newline runs to a single newline: a newline
is emitted once and the rest of its run is skipped. -/
def collapseNewlinesAux : Nat → List Char → List Char
  | 0, cs => cs
  | _, [] => []
  | fuel + 1, '\n' :: rest =>
    '\n' :: collapseNewlinesAux fuel (rest.dropWhile (fun c => c == '\n'))
  | fuel + 1, c :: rest => c :: collapseNewlinesAux fuel rest

/-- re.sub collapsing newline runs to a single newline. -/
def collapseNewlines (cs : List Char) : List Char :=
  collapseNewlinesAux (cs.length + 1) cs

/-- Python str.split on the newline character. -/
def splitLinesAux : List Char → List Char → List (List Char)
  | [], cur => [cur.reverse]
  | '\n' :: rest, cur => cur.reverse :: splitLinesAux rest []
  | c :: rest, cur => splitLinesAux rest (c :: cur)

/-- Split a text into its newline-separated lines. -/
def splitLines (cs : List Char) : List (List Char) := splitLinesAux cs []

/-- Python str.join with a newline separator. -/
def joinNL : List (List Char) → List Char
  | [] => []
  | [l] => l
  | l :: ls => l ++ '\n' :: joinNL ls

/-- Numeric value of a string of decimal digits. -/
def digitsToNat (ds : List Char) : Nat :=
  ds.foldl (fun acc c => acc * 10 + (c.toNat - 48)) 0

/-- The HTML5 named character reference table used by Python
html.unescape (html.entities.html5): reference names, with and without
a trailing semicolon where the standard allows it, mapped to their
replacement text. -/
def html5Table : List (String × String) := [
  ("AElig", "\u00c6"), ("AElig;", "\u00c6"), ("AMP", "&"), ("AMP;", "&"), ("Aacute", "\u00c1"),
  ("Aacute;", "\u00c1"), ("Abreve;", "\u0102"), ("Acirc", "\u00c2"), ("Acirc;", "\u00c2"),
  ("Acy;", "\u0410"), ("Afr;", "𝔄"), ("Agrave", "\u00c0"), ("Agrave;", "\u00c0"),
  ("Alpha;", "\u0391"), ("Amacr;", "\u0100"), ("And;", "\u2a53"), ("Aogon;", "\u0104"),
  ("Aopf;", "𝔸"), ("ApplyFunction;", "\u2061"), ("Aring", "\u00c5"), ("Aring;", "\u00c5"),
  ("Ascr;", "𝒜"), ("Assign;", "\u2254"), ("Atilde", "\u00c3"), ("Atilde;", "\u00c3"),
  ("Auml", "\u00c4"), ("Auml;", "\u00c4"), ("Backslash;", "\u2216"), ("Barv;", "\u2ae7"),
  ("Barwed;", "\u2306"), ("Bcy;", "\u0411"), ("Because;", "\u2235"), ("Bernoullis;", "\u212c"),
  ("Beta;", "\u0392"), ("Bfr;", "𝔅"), ("Bopf;", "𝔹"), ("Breve;", "\u02d8"), ("Bscr;", "\u212c"),
  ("Bumpeq;", "\u224e"), ("CHcy;", "\u0427"), ("COPY", "\u00a9"), ("COPY;", "\u00a9"),
  ("Cacute;", "\u0106"), ("Cap;", "\u22d2"), ("CapitalDifferentialD;", "\u2145"),
  ("Cayleys;", "\u212d"), ("Ccaron;", "\u010c"), ("Ccedil", "\u00c7"), ("Ccedil;", "\u00c7"),
  ("Ccirc;", "\u0108"), ("Cconint;", "\u2230"), ("Cdot;", "\u010a"), ("Cedilla;", "\u00b8"),
  ("CenterDot;", "\u00b7"), ("Cfr;", "\u212d"), ("Chi;", "\u03a7"), ("CircleDot;", "\u2299"),
  ("CircleMinus;", "\u2296"), ("CirclePlus;", "\u2295"), ("CircleTimes;", "\u2297"),
  ("ClockwiseContourIntegral;", "\u2232"), ("CloseCurlyDoubleQuote;", "\u201d"),
  ("CloseCurlyQuote;", "\u2019"), ("Colon;", "\u2237"), ("Colone;", "\u2a74"),
  ("Congruent;", "\u2261"), ("Conint;", "\u222f"), ("ContourIntegral;", "\u222e"),
  ("Copf;", "\u2102"), ("Coproduct;", "\u2210"), ("CounterClockwiseContourIntegral;", "\u2233"),
  ("Cross;", "\u2a2f"), ("Cscr;", "𝒞"), ("Cup;", "\u22d3"), ("CupCap;", "\u224d"),
  ("DD;", "\u2145"), ("DDotrahd;", "\u2911"), ("DJcy;", "\u0402"), ("DScy;", "\u0405"),
  ("DZcy;", "\u040f"), ("Dagger;", "\u2021"), ("Darr;", "\u21a1"), ("Dashv;", "\u2ae4"),
  ("Dcaron;", "\u010e"), ("Dcy;", "\u0414"), ("Del;", "\u2207"), ("Delta;", "\u0394"),
  ("Dfr;", "𝔇"), ("DiacriticalAcute;", "\u00b4"), ("DiacriticalDot;", "\u02d9"),
  ("DiacriticalDoubleAcute;", "\u02dd"), ("DiacriticalGrave;", "\x60"), ("DiacriticalTilde;", "\u02dc"),
  ("Diamond;", "\u22c4"), ("DifferentialD;", "\u2146"), ("Dopf;", "𝔻"), ("Dot;", "\u00a8"),
  ("DotDot;", "\u20dc"), ("DotEqual;", "\u2250"), ("DoubleContourIntegral;", "\u222f"),
  ("DoubleDot;", "\u00a8"), ("DoubleDownArrow;", "\u21d3"), ("DoubleLeftArrow;", "\u21d0"),
  ("DoubleLeftRightArrow;", "\u21d4"), ("DoubleLeftTee;", "\u2ae4"), ("DoubleLongLeftArrow;", "\u27f8"),
  ("DoubleLongLeftRightArrow;", "\u27fa"), ("DoubleLongRightArrow;", "\u27f9"),
  ("DoubleRightArrow;", "\u21d2"), ("DoubleRightTee;", "\u22a8"), ("DoubleUpArrow;", "\u21d1"),
  ("DoubleUpDownArrow;", "\u21d5"), ("DoubleVerticalBar;", "\u2225"), ("DownArrow;", "\u2193"),
  ("DownArrowBar;", "\u2913"), ("DownArrowUpArrow;", "\u21f5"), ("DownBreve;", "\u0311"),
  ("DownLeftRightVector;", "\u2950"), ("DownLeftTeeVector;", "\u295e"), ("DownLeftVector;", "\u21bd"),
  ("DownLeftVectorBar;", "\u2956"), ("DownRightTeeVector;", "\u295f"), ("DownRightVector;", "\u21c1"),
  ("DownRightVectorBar;", "\u2957"), ("DownTee;", "\u22a4"), ("DownTeeArrow;", "\u21a7"),
  ("Downarrow;", "\u21d3"), ("Dscr;", "𝒟"), ("Dstrok;", "\u0110"), ("ENG;", "\u014a"),
  ("ETH", "\u00d0"), ("ETH;", "\u00d0"), ("Eacute", "\u00c9"), ("Eacute;", "\u00c9"),
  ("Ecaron;", "\u011a"), ("Ecirc", "\u00ca"), ("Ecirc;", "\u00ca"), ("Ecy;", "\u042d"),
  ("Edot;", "\u0116"), ("Efr;", "𝔈"), ("Egrave", "\u00c8"), ("Egrave;", "\u00c8"),
  ("Element;", "\u2208"), ("Emacr;", "\u0112"), ("EmptySmallSquare;", "\u25fb"),
  ("EmptyVerySmallSquare;", "\u25ab"), ("Eogon;", "\u0118"), ("Eopf;", "𝔼"),
  ("Epsilon;", "\u0395"), ("Equal;", "\u2a75"), ("EqualTilde;", "\u2242"), ("Equilibrium;", "\u21cc"),
  ("Escr;", "\u2130"), ("Esim;", "\u2a73"), ("Eta;", "\u0397"), ("Euml", "\u00cb"),
  ("Euml;", "\u00cb"), ("Exists;", "\u2203"), ("ExponentialE;", "\u2147"), ("Fcy;", "\u0424"),
  ("Ffr;", "𝔉"), ("FilledSmallSquare;", "\u25fc"), ("FilledVerySmallSquare;", "\u25aa"),
  ("Fopf;", "𝔽"), ("ForAll;", "\u2200"), ("Fouriertrf;", "\u2131"), ("Fscr;", "\u2131"),
  ("GJcy;", "\u0403"), ("GT", ">"), ("GT;", ">"), ("Gamma;", "\u0393"), ("Gammad;", "\u03dc"),
  ("Gbreve;", "\u011e"), ("Gcedil;", "\u0122"), ("Gcirc;", "\u011c"), ("Gcy;", "\u0413"),
  ("Gdot;", "\u0120"), ("Gfr;", "𝔊"), ("Gg;", "\u22d9"), ("Gopf;", "𝔾"), ("GreaterEqual;", "\u2265"),
  ("GreaterEqualLess;", "\u22db"), ("GreaterFullEqual;", "\u2267"), ("GreaterGreater;", "\u2aa2"),
  ("GreaterLess;", "\u2277"), ("GreaterSlantEqual;", "\u2a7e"), ("GreaterTilde;", "\u2273"),
  ("Gscr;", "𝒢"), ("Gt;", "\u226b"), ("HARDcy;", "\u042a"), ("Hacek;", "\u02c7"),
  ("Hat;", "^"), ("Hcirc;", "\u0124"), ("Hfr;", "\u210c"), ("HilbertSpace;", "\u210b"),
  ("Hopf;", "\u210d"), ("HorizontalLine;", "\u2500"), ("Hscr;", "\u210b"), ("Hstrok;", "\u0126"),
  ("HumpDownHump;", "\u224e"), ("HumpEqual;", "\u224f"), ("IEcy;", "\u0415"),
  ("IJlig;", "\u0132"), ("IOcy;", "\u0401"), ("Iacute", "\u00cd"), ("Iacute;", "\u00cd"),
  ("Icirc", "\u00ce"), ("Icirc;", "\u00ce"), ("Icy;", "\u0418"), ("Idot;", "\u0130"),
  ("Ifr;", "\u2111"), ("Igrave", "\u00cc"), ("Igrave;", "\u00cc"), ("Im;", "\u2111"),
  ("Imacr;", "\u012a"), ("ImaginaryI;", "\u2148"), ("Implies;", "\u21d2"), ("Int;", "\u222c"),
  ("Integral;", "\u222b"), ("Intersection;", "\u22c2"), ("InvisibleComma;", "\u2063"),
  ("InvisibleTimes;", "\u2062"), ("Iogon;", "\u012e"), ("Iopf;", "𝕀"), ("Iota;", "\u0399"),
  ("Iscr;", "\u2110"), ("Itilde;", "\u0128"), ("Iukcy;", "\u0406"), ("Iuml", "\u00cf"),
  ("Iuml;", "\u00cf"), ("Jcirc;", "\u0134"), ("Jcy;", "\u0419"), ("Jfr;", "𝔍"),
  ("Jopf;", "𝕁"), ("Jscr;", "𝒥"), ("Jsercy;", "\u0408"), ("Jukcy;", "\u0404"),
  ("KHcy;", "\u0425"), ("KJcy;", "\u040c"), ("Kappa;", "\u039a"), ("Kcedil;", "\u0136"),
  ("Kcy;", "\u041a"), ("Kfr;", "𝔎"), ("Kopf;", "𝕂"), ("Kscr;", "𝒦"), ("LJcy;", "\u0409"),
  ("LT", "<"), ("LT;", "<"), ("Lacute;", "\u0139"), ("Lambda;", "\u039b"), ("Lang;", "\u27ea"),
  ("Laplacetrf;", "\u2112"), ("Larr;", "\u219e"), ("Lcaron;", "\u013d"), ("Lcedil;", "\u013b"),
  ("Lcy;", "\u041b"), ("LeftAngleBracket;", "\u27e8"), ("LeftArrow;", "\u2190"),
  ("LeftArrowBar;", "\u21e4"), ("LeftArrowRightArrow;", "\u21c6"), ("LeftCeiling;", "\u2308"),
  ("LeftDoubleBracket;", "\u27e6"), ("LeftDownTeeVector;", "\u2961"), ("LeftDownVector;", "\u21c3"),
  ("LeftDownVectorBar;", "\u2959"), ("LeftFloor;", "\u230a"), ("LeftRightArrow;", "\u2194"),
  ("LeftRightVector;", "\u294e"), ("LeftTee;", "\u22a3"), ("LeftTeeArrow;", "\u21a4"),
  ("LeftTeeVector;", "\u295a"), ("LeftTriangle;", "\u22b2"), ("LeftTriangleBar;", "\u29cf"),
  ("LeftTriangleEqual;", "\u22b4"), ("LeftUpDownVector;", "\u2951"), ("LeftUpTeeVector;", "\u2960"),
  ("LeftUpVector;", "\u21bf"), ("LeftUpVectorBar;", "\u2958"), ("LeftVector;", "\u21bc"),
  ("LeftVectorBar;", "\u2952"), ("Leftarrow;", "\u21d0"), ("Leftrightarrow;", "\u21d4"),
  ("LessEqualGreater;", "\u22da"), ("LessFullEqual;", "\u2266"), ("LessGreater;", "\u2276"),
  ("LessLess;", "\u2aa1"), ("LessSlantEqual;", "\u2a7d"), ("LessTilde;", "\u2272"),
  ("Lfr;", "𝔏"), ("Ll;", "\u22d8"), ("Lleftarrow;", "\u21da"), ("Lmidot;", "\u013f"),
  ("LongLeftArrow;", "\u27f5"), ("LongLeftRightArrow;", "\u27f7"), ("LongRightArrow;", "\u27f6"),
  ("Longleftarrow;", "\u27f8"), ("Longleftrightarrow;", "\u27fa"), ("Longrightarrow;", "\u27f9"),
  ("Lopf;", "𝕃"), ("LowerLeftArrow;", "\u2199"), ("LowerRightArrow;", "\u2198"),
  ("Lscr;", "\u2112"), ("Lsh;", "\u21b0"), ("Lstrok;", "\u0141"), ("Lt;", "\u226a"),
  ("Map;", "\u2905"), ("Mcy;", "\u041c"), ("MediumSpace;", "\u205f"), ("Mellintrf;", "\u2133"),
  ("Mfr;", "𝔐"), ("MinusPlus;", "\u2213"), ("Mopf;", "𝕄"), ("Mscr;", "\u2133"),
  ("Mu;", "\u039c"), ("NJcy;", "\u040a"), ("Nacute;", "\u0143"), ("Ncaron;", "\u0147"),
  ("Ncedil;", "\u0145"), ("Ncy;", "\u041d"), ("NegativeMediumSpace;", "\u200b"),
  ("NegativeThickSpace;", "\u200b"), ("NegativeThinSpace;", "\u200b"), ("NegativeVeryThinSpace;", "\u200b"),
  ("NestedGreaterGreater;", "\u226b"), ("NestedLessLess;", "\u226a"), ("NewLine;", "\x0a"),
  ("Nfr;", "𝔑"), ("NoBreak;", "\u2060"), ("NonBreakingSpace;", "\u00a0"), ("Nopf;", "\u2115"),
  ("Not;", "\u2aec"), ("NotCongruent;", "\u2262"), ("NotCupCap;", "\u226d"),
  ("NotDoubleVerticalBar;", "\u2226"), ("NotElement;", "\u2209"), ("NotEqual;", "\u2260"),
  ("NotEqualTilde;", "\u2242\u0338"), ("NotExists;", "\u2204"), ("NotGreater;", "\u226f"),
  ("NotGreaterEqual;", "\u2271"), ("NotGreaterFullEqual;", "\u2267\u0338"), ("NotGreaterGreater;", "\u226b\u0338"),
  ("NotGreaterLess;", "\u2279"), ("NotGreaterSlantEqual;", "\u2a7e\u0338"), ("NotGreaterTilde;", "\u2275"),
  ("NotHumpDownHump;", "\u224e\u0338"), ("NotHumpEqual;", "\u224f\u0338"), ("NotLeftTriangle;", "\u22ea"),
  ("NotLeftTriangleBar;", "\u29cf\u0338"), ("NotLeftTriangleEqual;", "\u22ec"),
  ("NotLess;", "\u226e"), ("NotLessEqual;", "\u2270"), ("NotLessGreater;", "\u2278"),
  ("NotLessLess;", "\u226a\u0338"), ("NotLessSlantEqual;", "\u2a7d\u0338"), ("NotLessTilde;", "\u2274"),
  ("NotNestedGreaterGreater;", "\u2aa2\u0338"), ("NotNestedLessLess;", "\u2aa1\u0338"),
  ("NotPrecedes;", "\u2280"), ("NotPrecedesEqual;", "\u2aaf\u0338"), ("NotPrecedesSlantEqual;", "\u22e0"),
  ("NotReverseElement;", "\u220c"), ("NotRightTriangle;", "\u22eb"), ("NotRightTriangleBar;", "\u29d0\u0338"),
  ("NotRightTriangleEqual;", "\u22ed"), ("NotSquareSubset;", "\u228f\u0338"),
  ("NotSquareSubsetEqual;", "\u22e2"), ("NotSquareSuperset;", "\u2290\u0338"),
  ("NotSquareSupersetEqual;", "\u22e3"), ("NotSubset;", "\u2282\u20d2"), ("NotSubsetEqual;", "\u2288"),
  ("NotSucceeds;", "\u2281"), ("NotSucceedsEqual;", "\u2ab0\u0338"), ("NotSucceedsSlantEqual;", "\u22e1"),
  ("NotSucceedsTilde;", "\u227f\u0338"), ("NotSuperset;", "\u2283\u20d2"), ("NotSupersetEqual;", "\u2289"),
  ("NotTilde;", "\u2241"), ("NotTildeEqual;", "\u2244"), ("NotTildeFullEqual;", "\u2247"),
  ("NotTildeTilde;", "\u2249"), ("NotVerticalBar;", "\u2224"), ("Nscr;", "𝒩"),
  ("Ntilde", "\u00d1"), ("Ntilde;", "\u00d1"), ("Nu;", "\u039d"), ("OElig;", "\u0152"),
  ("Oacute", "\u00d3"), ("Oacute;", "\u00d3"), ("Ocirc", "\u00d4"), ("Ocirc;", "\u00d4"),
  ("Ocy;", "\u041e"), ("Odblac;", "\u0150"), ("Ofr;", "𝔒"), ("Ograve", "\u00d2"),
  ("Ograve;", "\u00d2"), ("Omacr;", "\u014c"), ("Omega;", "\u03a9"), ("Omicron;", "\u039f"),
  ("Oopf;", "𝕆"), ("OpenCurlyDoubleQuote;", "\u201c"), ("OpenCurlyQuote;", "\u2018"),
  ("Or;", "\u2a54"), ("Oscr;", "𝒪"), ("Oslash", "\u00d8"), ("Oslash;", "\u00d8"),
  ("Otilde", "\u00d5"), ("Otilde;", "\u00d5"), ("Otimes;", "\u2a37"), ("Ouml", "\u00d6"),
  ("Ouml;", "\u00d6"), ("OverBar;", "\u203e"), ("OverBrace;", "\u23de"), ("OverBracket;", "\u23b4"),
  ("OverParenthesis;", "\u23dc"), ("PartialD;", "\u2202"), ("Pcy;", "\u041f"),
  ("Pfr;", "𝔓"), ("Phi;", "\u03a6"), ("Pi;", "\u03a0"), ("PlusMinus;", "\u00b1"),
  ("Poincareplane;", "\u210c"), ("Popf;", "\u2119"), ("Pr;", "\u2abb"), ("Precedes;", "\u227a"),
  ("PrecedesEqual;", "\u2aaf"), ("PrecedesSlantEqual;", "\u227c"), ("PrecedesTilde;", "\u227e"),
  ("Prime;", "\u2033"), ("Product;", "\u220f"), ("Proportion;", "\u2237"), ("Proportional;", "\u221d"),
  ("Pscr;", "𝒫"), ("Psi;", "\u03a8"), ("QUOT", "\""), ("QUOT;", "\""), ("Qfr;", "𝔔"),
  ("Qopf;", "\u211a"), ("Qscr;", "𝒬"), ("RBarr;", "\u2910"), ("REG", "\u00ae"),
  ("REG;", "\u00ae"), ("Racute;", "\u0154"), ("Rang;", "\u27eb"), ("Rarr;", "\u21a0"),
  ("Rarrtl;", "\u2916"), ("Rcaron;", "\u0158"), ("Rcedil;", "\u0156"), ("Rcy;", "\u0420"),
  ("Re;", "\u211c"), ("ReverseElement;", "\u220b"), ("ReverseEquilibrium;", "\u21cb"),
  ("ReverseUpEquilibrium;", "\u296f"), ("Rfr;", "\u211c"), ("Rho;", "\u03a1"),
  ("RightAngleBracket;", "\u27e9"), ("RightArrow;", "\u2192"), ("RightArrowBar;", "\u21e5"),
  ("RightArrowLeftArrow;", "\u21c4"), ("RightCeiling;", "\u2309"), ("RightDoubleBracket;", "\u27e7"),
  ("RightDownTeeVector;", "\u295d"), ("RightDownVector;", "\u21c2"), ("RightDownVectorBar;", "\u2955"),
  ("RightFloor;", "\u230b"), ("RightTee;", "\u22a2"), ("RightTeeArrow;", "\u21a6"),
  ("RightTeeVector;", "\u295b"), ("RightTriangle;", "\u22b3"), ("RightTriangleBar;", "\u29d0"),
  ("RightTriangleEqual;", "\u22b5"), ("RightUpDownVector;", "\u294f"), ("RightUpTeeVector;", "\u295c"),
  ("RightUpVector;", "\u21be"), ("RightUpVectorBar;", "\u2954"), ("RightVector;", "\u21c0"),
  ("RightVectorBar;", "\u2953"), ("Rightarrow;", "\u21d2"), ("Ropf;", "\u211d"),
  ("RoundImplies;", "\u2970"), ("Rrightarrow;", "\u21db"), ("Rscr;", "\u211b"),
  ("Rsh;", "\u21b1"), ("RuleDelayed;", "\u29f4"), ("SHCHcy;", "\u0429"), ("SHcy;", "\u0428"),
  ("SOFTcy;", "\u042c"), ("Sacute;", "\u015a"), ("Sc;", "\u2abc"), ("Scaron;", "\u0160"),
  ("Scedil;", "\u015e"), ("Scirc;", "\u015c"), ("Scy;", "\u0421"), ("Sfr;", "𝔖"),
  ("ShortDownArrow;", "\u2193"), ("ShortLeftArrow;", "\u2190"), ("ShortRightArrow;", "\u2192"),
  ("ShortUpArrow;", "\u2191"), ("Sigma;", "\u03a3"), ("SmallCircle;", "\u2218"),
  ("Sopf;", "𝕊"), ("Sqrt;", "\u221a"), ("Square;", "\u25a1"), ("SquareIntersection;", "\u2293"),
  ("SquareSubset;", "\u228f"), ("SquareSubsetEqual;", "\u2291"), ("SquareSuperset;", "\u2290"),
  ("SquareSupersetEqual;", "\u2292"), ("SquareUnion;", "\u2294"), ("Sscr;", "𝒮"),
  ("Star;", "\u22c6"), ("Sub;", "\u22d0"), ("Subset;", "\u22d0"), ("SubsetEqual;", "\u2286"),
  ("Succeeds;", "\u227b"), ("SucceedsEqual;", "\u2ab0"), ("SucceedsSlantEqual;", "\u227d"),
  ("SucceedsTilde;", "\u227f"), ("SuchThat;", "\u220b"), ("Sum;", "\u2211"),
  ("Sup;", "\u22d1"), ("Superset;", "\u2283"), ("SupersetEqual;", "\u2287"),
  ("Supset;", "\u22d1"), ("THORN", "\u00de"), ("THORN;", "\u00de"), ("TRADE;", "\u2122"),
  ("TSHcy;", "\u040b"), ("TScy;", "\u0426"), ("Tab;", "\x09"), ("Tau;", "\u03a4"),
  ("Tcaron;", "\u0164"), ("Tcedil;", "\u0162"), ("Tcy;", "\u0422"), ("Tfr;", "𝔗"),
  ("Therefore;", "\u2234"), ("Theta;", "\u0398"), ("ThickSpace;", "\u205f\u200a"),
  ("ThinSpace;", "\u2009"), ("Tilde;", "\u223c"), ("TildeEqual;", "\u2243"),
  ("TildeFullEqual;", "\u2245"), ("TildeTilde;", "\u2248"), ("Topf;", "𝕋"), ("TripleDot;", "\u20db"),
  ("Tscr;", "𝒯"), ("Tstrok;", "\u0166"), ("Uacute", "\u00da"), ("Uacute;", "\u00da"),
  ("Uarr;", "\u219f"), ("Uarrocir;", "\u2949"), ("Ubrcy;", "\u040e"), ("Ubreve;", "\u016c"),
  ("Ucirc", "\u00db"), ("Ucirc;", "\u00db"), ("Ucy;", "\u0423"), ("Udblac;", "\u0170"),
  ("Ufr;", "𝔘"), ("Ugrave", "\u00d9"), ("Ugrave;", "\u00d9"), ("Umacr;", "\u016a"),
  ("UnderBar;", "_"), ("UnderBrace;", "\u23df"), ("UnderBracket;", "\u23b5"),
  ("UnderParenthesis;", "\u23dd"), ("Union;", "\u22c3"), ("UnionPlus;", "\u228e"),
  ("Uogon;", "\u0172"), ("Uopf;", "𝕌"), ("UpArrow;", "\u2191"), ("UpArrowBar;", "\u2912"),
  ("UpArrowDownArrow;", "\u21c5"), ("UpDownArrow;", "\u2195"), ("UpEquilibrium;", "\u296e"),
  ("UpTee;", "\u22a5"), ("UpTeeArrow;", "\u21a5"), ("Uparrow;", "\u21d1"), ("Updownarrow;", "\u21d5"),
  ("UpperLeftArrow;", "\u2196"), ("UpperRightArrow;", "\u2197"), ("Upsi;", "\u03d2"),
  ("Upsilon;", "\u03a5"), ("Uring;", "\u016e"), ("Uscr;", "𝒰"), ("Utilde;", "\u0168"),
  ("Uuml", "\u00dc"), ("Uuml;", "\u00dc"), ("VDash;", "\u22ab"), ("Vbar;", "\u2aeb"),
  ("Vcy;", "\u0412"), ("Vdash;", "\u22a9"), ("Vdashl;", "\u2ae6"), ("Vee;", "\u22c1"),
  ("Verbar;", "\u2016"), ("Vert;", "\u2016"), ("VerticalBar;", "\u2223"), ("VerticalLine;", "|"),
  ("VerticalSeparator;", "\u2758"), ("VerticalTilde;", "\u2240"), ("VeryThinSpace;", "\u200a"),
  ("Vfr;", "𝔙"), ("Vopf;", "𝕍"), ("Vscr;", "𝒱"), ("Vvdash;", "\u22aa"), ("Wcirc;", "\u0174"),
  ("Wedge;", "\u22c0"), ("Wfr;", "𝔚"), ("Wopf;", "𝕎"), ("Wscr;", "𝒲"), ("Xfr;", "𝔛"),
  ("Xi;", "\u039e"), ("Xopf;", "𝕏"), ("Xscr;", "𝒳"), ("YAcy;", "\u042f"), ("YIcy;", "\u0407"),
  ("YUcy;", "\u042e"), ("Yacute", "\u00dd"), ("Yacute;", "\u00dd"), ("Ycirc;", "\u0176"),
  ("Ycy;", "\u042b"), ("Yfr;", "𝔜"), ("Yopf;", "𝕐"), ("Yscr;", "𝒴"), ("Yuml;", "\u0178"),
  ("ZHcy;", "\u0416"), ("Zacute;", "\u0179"), ("Zcaron;", "\u017d"), ("Zcy;", "\u0417"),
  ("Zdot;", "\u017b"), ("ZeroWidthSpace;", "\u200b"), ("Zeta;", "\u0396"), ("Zfr;", "\u2128"),
  ("Zopf;", "\u2124"), ("Zscr;", "𝒵"), ("aacute", "\u00e1"), ("aacute;", "\u00e1"),
  ("abreve;", "\u0103"), ("ac;", "\u223e"), ("acE;", "\u223e\u0333"), ("acd;", "\u223f"),
  ("acirc", "\u00e2"), ("acirc;", "\u00e2"), ("acute", "\u00b4"), ("acute;", "\u00b4"),
  ("acy;", "\u0430"), ("aelig", "\u00e6"), ("aelig;", "\u00e6"), ("af;", "\u2061"),
  ("afr;", "𝔞"), ("agrave", "\u00e0"), ("agrave;", "\u00e0"), ("alefsym;", "\u2135"),
  ("aleph;", "\u2135"), ("alpha;", "\u03b1"), ("amacr;", "\u0101"), ("amalg;", "\u2a3f"),
  ("amp", "&"), ("amp;", "&"), ("and;", "\u2227"), ("andand;", "\u2a55"), ("andd;", "\u2a5c"),
  ("andslope;", "\u2a58"), ("andv;", "\u2a5a"), ("ang;", "\u2220"), ("ange;", "\u29a4"),
  ("angle;", "\u2220"), ("angmsd;", "\u2221"), ("angmsdaa;", "\u29a8"), ("angmsdab;", "\u29a9"),
  ("angmsdac;", "\u29aa"), ("angmsdad;", "\u29ab"), ("angmsdae;", "\u29ac"),
  ("angmsdaf;", "\u29ad"), ("angmsdag;", "\u29ae"), ("angmsdah;", "\u29af"),
  ("angrt;", "\u221f"), ("angrtvb;", "\u22be"), ("angrtvbd;", "\u299d"), ("angsph;", "\u2222"),
  ("angst;", "\u00c5"), ("angzarr;", "\u237c"), ("aogon;", "\u0105"), ("aopf;", "𝕒"),
  ("ap;", "\u2248"), ("apE;", "\u2a70"), ("apacir;", "\u2a6f"), ("ape;", "\u224a"),
  ("apid;", "\u224b"), ("apos;", "\x27"), ("approx;", "\u2248"), ("approxeq;", "\u224a"),
  ("aring", "\u00e5"), ("aring;", "\u00e5"), ("ascr;", "𝒶"), ("ast;", "*"), ("asymp;", "\u2248"),
  ("asympeq;", "\u224d"), ("atilde", "\u00e3"), ("atilde;", "\u00e3"), ("auml", "\u00e4"),
  ("auml;", "\u00e4"), ("awconint;", "\u2233"), ("awint;", "\u2a11"), ("bNot;", "\u2aed"),
  ("backcong;", "\u224c"), ("backepsilon;", "\u03f6"), ("backprime;", "\u2035"),
  ("backsim;", "\u223d"), ("backsimeq;", "\u22cd"), ("barvee;", "\u22bd"), ("barwed;", "\u2305"),
  ("barwedge;", "\u2305"), ("bbrk;", "\u23b5"), ("bbrktbrk;", "\u23b6"), ("bcong;", "\u224c"),
  ("bcy;", "\u0431"), ("bdquo;", "\u201e"), ("becaus;", "\u2235"), ("because;", "\u2235"),
  ("bemptyv;", "\u29b0"), ("bepsi;", "\u03f6"), ("bernou;", "\u212c"), ("beta;", "\u03b2"),
  ("beth;", "\u2136"), ("between;", "\u226c"), ("bfr;", "𝔟"), ("bigcap;", "\u22c2"),
  ("bigcirc;", "\u25ef"), ("bigcup;", "\u22c3"), ("bigodot;", "\u2a00"), ("bigoplus;", "\u2a01"),
  ("bigotimes;", "\u2a02"), ("bigsqcup;", "\u2a06"), ("bigstar;", "\u2605"),
  ("bigtriangledown;", "\u25bd"), ("bigtriangleup;", "\u25b3"), ("biguplus;", "\u2a04"),
  ("bigvee;", "\u22c1"), ("bigwedge;", "\u22c0"), ("bkarow;", "\u290d"), ("blacklozenge;", "\u29eb"),
  ("blacksquare;", "\u25aa"), ("blacktriangle;", "\u25b4"), ("blacktriangledown;", "\u25be"),
  ("blacktriangleleft;", "\u25c2"), ("blacktriangleright;", "\u25b8"), ("blank;", "\u2423"),
  ("blk12;", "\u2592"), ("blk14;", "\u2591"), ("blk34;", "\u2593"), ("block;", "\u2588"),
  ("bne;", "=\u20e5"), ("bnequiv;", "\u2261\u20e5"), ("bnot;", "\u2310"), ("bopf;", "𝕓"),
  ("bot;", "\u22a5"), ("bottom;", "\u22a5"), ("bowtie;", "\u22c8"), ("boxDL;", "\u2557"),
  ("boxDR;", "\u2554"), ("boxDl;", "\u2556"), ("boxDr;", "\u2553"), ("boxH;", "\u2550"),
  ("boxHD;", "\u2566"), ("boxHU;", "\u2569"), ("boxHd;", "\u2564"), ("boxHu;", "\u2567"),
  ("boxUL;", "\u255d"), ("boxUR;", "\u255a"), ("boxUl;", "\u255c"), ("boxUr;", "\u2559"),
  ("boxV;", "\u2551"), ("boxVH;", "\u256c"), ("boxVL;", "\u2563"), ("boxVR;", "\u2560"),
  ("boxVh;", "\u256b"), ("boxVl;", "\u2562"), ("boxVr;", "\u255f"), ("boxbox;", "\u29c9"),
  ("boxdL;", "\u2555"), ("boxdR;", "\u2552"), ("boxdl;", "\u2510"), ("boxdr;", "\u250c"),
  ("boxh;", "\u2500"), ("boxhD;", "\u2565"), ("boxhU;", "\u2568"), ("boxhd;", "\u252c"),
  ("boxhu;", "\u2534"), ("boxminus;", "\u229f"), ("boxplus;", "\u229e"), ("boxtimes;", "\u22a0"),
  ("boxuL;", "\u255b"), ("boxuR;", "\u2558"), ("boxul;", "\u2518"), ("boxur;", "\u2514"),
  ("boxv;", "\u2502"), ("boxvH;", "\u256a"), ("boxvL;", "\u2561"), ("boxvR;", "\u255e"),
  ("boxvh;", "\u253c"), ("boxvl;", "\u2524"), ("boxvr;", "\u251c"), ("bprime;", "\u2035"),
  ("breve;", "\u02d8"), ("brvbar", "\u00a6"), ("brvbar;", "\u00a6"), ("bscr;", "𝒷"),
  ("bsemi;", "\u204f"), ("bsim;", "\u223d"), ("bsime;", "\u22cd"), ("bsol;", "\\"),
  ("bsolb;", "\u29c5"), ("bsolhsub;", "\u27c8"), ("bull;", "\u2022"), ("bullet;", "\u2022"),
  ("bump;", "\u224e"), ("bumpE;", "\u2aae"), ("bumpe;", "\u224f"), ("bumpeq;", "\u224f"),
  ("cacute;", "\u0107"), ("cap;", "\u2229"), ("capand;", "\u2a44"), ("capbrcup;", "\u2a49"),
  ("capcap;", "\u2a4b"), ("capcup;", "\u2a47"), ("capdot;", "\u2a40"), ("caps;", "\u2229\ufe00"),
  ("caret;", "\u2041"), ("caron;", "\u02c7"), ("ccaps;", "\u2a4d"), ("ccaron;", "\u010d"),
  ("ccedil", "\u00e7"), ("ccedil;", "\u00e7"), ("ccirc;", "\u0109"), ("ccups;", "\u2a4c"),
  ("ccupssm;", "\u2a50"), ("cdot;", "\u010b"), ("cedil", "\u00b8"), ("cedil;", "\u00b8"),
  ("cemptyv;", "\u29b2"), ("cent", "\u00a2"), ("cent;", "\u00a2"), ("centerdot;", "\u00b7"),
  ("cfr;", "𝔠"), ("chcy;", "\u0447"), ("check;", "\u2713"), ("checkmark;", "\u2713"),
  ("chi;", "\u03c7"), ("cir;", "\u25cb"), ("cirE;", "\u29c3"), ("circ;", "\u02c6"),
  ("circeq;", "\u2257"), ("circlearrowleft;", "\u21ba"), ("circlearrowright;", "\u21bb"),
  ("circledR;", "\u00ae"), ("circledS;", "\u24c8"), ("circledast;", "\u229b"),
  ("circledcirc;", "\u229a"), ("circleddash;", "\u229d"), ("cire;", "\u2257"),
  ("cirfnint;", "\u2a10"), ("cirmid;", "\u2aef"), ("cirscir;", "\u29c2"), ("clubs;", "\u2663"),
  ("clubsuit;", "\u2663"), ("colon;", ":"), ("colone;", "\u2254"), ("coloneq;", "\u2254"),
  ("comma;", ","), ("commat;", "@"), ("comp;", "\u2201"), ("compfn;", "\u2218"),
  ("complement;", "\u2201"), ("complexes;", "\u2102"), ("cong;", "\u2245"), ("congdot;", "\u2a6d"),
  ("conint;", "\u222e"), ("copf;", "𝕔"), ("coprod;", "\u2210"), ("copy", "\u00a9"),
  ("copy;", "\u00a9"), ("copysr;", "\u2117"), ("crarr;", "\u21b5"), ("cross;", "\u2717"),
  ("cscr;", "𝒸"), ("csub;", "\u2acf"), ("csube;", "\u2ad1"), ("csup;", "\u2ad0"),
  ("csupe;", "\u2ad2"), ("ctdot;", "\u22ef"), ("cudarrl;", "\u2938"), ("cudarrr;", "\u2935"),
  ("cuepr;", "\u22de"), ("cuesc;", "\u22df"), ("cularr;", "\u21b6"), ("cularrp;", "\u293d"),
  ("cup;", "\u222a"), ("cupbrcap;", "\u2a48"), ("cupcap;", "\u2a46"), ("cupcup;", "\u2a4a"),
  ("cupdot;", "\u228d"), ("cupor;", "\u2a45"), ("cups;", "\u222a\ufe00"), ("curarr;", "\u21b7"),
  ("curarrm;", "\u293c"), ("curlyeqprec;", "\u22de"), ("curlyeqsucc;", "\u22df"),
  ("curlyvee;", "\u22ce"), ("curlywedge;", "\u22cf"), ("curren", "\u00a4"), ("curren;", "\u00a4"),
  ("curvearrowleft;", "\u21b6"), ("curvearrowright;", "\u21b7"), ("cuvee;", "\u22ce"),
  ("cuwed;", "\u22cf"), ("cwconint;", "\u2232"), ("cwint;", "\u2231"), ("cylcty;", "\u232d"),
  ("dArr;", "\u21d3"), ("dHar;", "\u2965"), ("dagger;", "\u2020"), ("daleth;", "\u2138"),
  ("darr;", "\u2193"), ("dash;", "\u2010"), ("dashv;", "\u22a3"), ("dbkarow;", "\u290f"),
  ("dblac;", "\u02dd"), ("dcaron;", "\u010f"), ("dcy;", "\u0434"), ("dd;", "\u2146"),
  ("ddagger;", "\u2021"), ("ddarr;", "\u21ca"), ("ddotseq;", "\u2a77"), ("deg", "\u00b0"),
  ("deg;", "\u00b0"), ("delta;", "\u03b4"), ("demptyv;", "\u29b1"), ("dfisht;", "\u297f"),
  ("dfr;", "𝔡"), ("dharl;", "\u21c3"), ("dharr;", "\u21c2"), ("diam;", "\u22c4"),
  ("diamond;", "\u22c4"), ("diamondsuit;", "\u2666"), ("diams;", "\u2666"), ("die;", "\u00a8"),
  ("digamma;", "\u03dd"), ("disin;", "\u22f2"), ("div;", "\u00f7"), ("divide", "\u00f7"),
  ("divide;", "\u00f7"), ("divideontimes;", "\u22c7"), ("divonx;", "\u22c7"),
  ("djcy;", "\u0452"), ("dlcorn;", "\u231e"), ("dlcrop;", "\u230d"), ("dollar;", "$"),
  ("dopf;", "𝕕"), ("dot;", "\u02d9"), ("doteq;", "\u2250"), ("doteqdot;", "\u2251"),
  ("dotminus;", "\u2238"), ("dotplus;", "\u2214"), ("dotsquare;", "\u22a1"),
  ("doublebarwedge;", "\u2306"), ("downarrow;", "\u2193"), ("downdownarrows;", "\u21ca"),
  ("downharpoonleft;", "\u21c3"), ("downharpoonright;", "\u21c2"), ("drbkarow;", "\u2910"),
  ("drcorn;", "\u231f"), ("drcrop;", "\u230c"), ("dscr;", "𝒹"), ("dscy;", "\u0455"),
  ("dsol;", "\u29f6"), ("dstrok;", "\u0111"), ("dtdot;", "\u22f1"), ("dtri;", "\u25bf"),
  ("dtrif;", "\u25be"), ("duarr;", "\u21f5"), ("duhar;", "\u296f"), ("dwangle;", "\u29a6"),
  ("dzcy;", "\u045f"), ("dzigrarr;", "\u27ff"), ("eDDot;", "\u2a77"), ("eDot;", "\u2251"),
  ("eacute", "\u00e9"), ("eacute;", "\u00e9"), ("easter;", "\u2a6e"), ("ecaron;", "\u011b"),
  ("ecir;", "\u2256"), ("ecirc", "\u00ea"), ("ecirc;", "\u00ea"), ("ecolon;", "\u2255"),
  ("ecy;", "\u044d"), ("edot;", "\u0117"), ("ee;", "\u2147"), ("efDot;", "\u2252"),
  ("efr;", "𝔢"), ("eg;", "\u2a9a"), ("egrave", "\u00e8"), ("egrave;", "\u00e8"),
  ("egs;", "\u2a96"), ("egsdot;", "\u2a98"), ("el;", "\u2a99"), ("elinters;", "\u23e7"),
  ("ell;", "\u2113"), ("els;", "\u2a95"), ("elsdot;", "\u2a97"), ("emacr;", "\u0113"),
  ("empty;", "\u2205"), ("emptyset;", "\u2205"), ("emptyv;", "\u2205"), ("emsp13;", "\u2004"),
  ("emsp14;", "\u2005"), ("emsp;", "\u2003"), ("eng;", "\u014b"), ("ensp;", "\u2002"),
  ("eogon;", "\u0119"), ("eopf;", "𝕖"), ("epar;", "\u22d5"), ("eparsl;", "\u29e3"),
  ("eplus;", "\u2a71"), ("epsi;", "\u03b5"), ("epsilon;", "\u03b5"), ("epsiv;", "\u03f5"),
  ("eqcirc;", "\u2256"), ("eqcolon;", "\u2255"), ("eqsim;", "\u2242"), ("eqslantgtr;", "\u2a96"),
  ("eqslantless;", "\u2a95"), ("equals;", "="), ("equest;", "\u225f"), ("equiv;", "\u2261"),
  ("equivDD;", "\u2a78"), ("eqvparsl;", "\u29e5"), ("erDot;", "\u2253"), ("erarr;", "\u2971"),
  ("escr;", "\u212f"), ("esdot;", "\u2250"), ("esim;", "\u2242"), ("eta;", "\u03b7"),
  ("eth", "\u00f0"), ("eth;", "\u00f0"), ("euml", "\u00eb"), ("euml;", "\u00eb"),
  ("euro;", "\u20ac"), ("excl;", "!"), ("exist;", "\u2203"), ("expectation;", "\u2130"),
  ("exponentiale;", "\u2147"), ("fallingdotseq;", "\u2252"), ("fcy;", "\u0444"),
  ("female;", "\u2640"), ("ffilig;", "\ufb03"), ("fflig;", "\ufb00"), ("ffllig;", "\ufb04"),
  ("ffr;", "𝔣"), ("filig;", "\ufb01"), ("fjlig;", "fj"), ("flat;", "\u266d"),
  ("fllig;", "\ufb02"), ("fltns;", "\u25b1"), ("fnof;", "\u0192"), ("fopf;", "𝕗"),
  ("forall;", "\u2200"), ("fork;", "\u22d4"), ("forkv;", "\u2ad9"), ("fpartint;", "\u2a0d"),
  ("frac12", "\u00bd"), ("frac12;", "\u00bd"), ("frac13;", "\u2153"), ("frac14", "\u00bc"),
  ("frac14;", "\u00bc"), ("frac15;", "\u2155"), ("frac16;", "\u2159"), ("frac18;", "\u215b"),
  ("frac23;", "\u2154"), ("frac25;", "\u2156"), ("frac34", "\u00be"), ("frac34;", "\u00be"),
  ("frac35;", "\u2157"), ("frac38;", "\u215c"), ("frac45;", "\u2158"), ("frac56;", "\u215a"),
  ("frac58;", "\u215d"), ("frac78;", "\u215e"), ("frasl;", "\u2044"), ("frown;", "\u2322"),
  ("fscr;", "𝒻"), ("gE;", "\u2267"), ("gEl;", "\u2a8c"), ("gacute;", "\u01f5"),
  ("gamma;", "\u03b3"), ("gammad;", "\u03dd"), ("gap;", "\u2a86"), ("gbreve;", "\u011f"),
  ("gcirc;", "\u011d"), ("gcy;", "\u0433"), ("gdot;", "\u0121"), ("ge;", "\u2265"),
  ("gel;", "\u22db"), ("geq;", "\u2265"), ("geqq;", "\u2267"), ("geqslant;", "\u2a7e"),
  ("ges;", "\u2a7e"), ("gescc;", "\u2aa9"), ("gesdot;", "\u2a80"), ("gesdoto;", "\u2a82"),
  ("gesdotol;", "\u2a84"), ("gesl;", "\u22db\ufe00"), ("gesles;", "\u2a94"),
  ("gfr;", "𝔤"), ("gg;", "\u226b"), ("ggg;", "\u22d9"), ("gimel;", "\u2137"),
  ("gjcy;", "\u0453"), ("gl;", "\u2277"), ("glE;", "\u2a92"), ("gla;", "\u2aa5"),
  ("glj;", "\u2aa4"), ("gnE;", "\u2269"), ("gnap;", "\u2a8a"), ("gnapprox;", "\u2a8a"),
  ("gne;", "\u2a88"), ("gneq;", "\u2a88"), ("gneqq;", "\u2269"), ("gnsim;", "\u22e7"),
  ("gopf;", "𝕘"), ("grave;", "\x60"), ("gscr;", "\u210a"), ("gsim;", "\u2273"),
  ("gsime;", "\u2a8e"), ("gsiml;", "\u2a90"), ("gt", ">"), ("gt;", ">"), ("gtcc;", "\u2aa7"),
  ("gtcir;", "\u2a7a"), ("gtdot;", "\u22d7"), ("gtlPar;", "\u2995"), ("gtquest;", "\u2a7c"),
  ("gtrapprox;", "\u2a86"), ("gtrarr;", "\u2978"), ("gtrdot;", "\u22d7"), ("gtreqless;", "\u22db"),
  ("gtreqqless;", "\u2a8c"), ("gtrless;", "\u2277"), ("gtrsim;", "\u2273"), ("gvertneqq;", "\u2269\ufe00"),
  ("gvnE;", "\u2269\ufe00"), ("hArr;", "\u21d4"), ("hairsp;", "\u200a"), ("half;", "\u00bd"),
  ("hamilt;", "\u210b"), ("hardcy;", "\u044a"), ("harr;", "\u2194"), ("harrcir;", "\u2948"),
  ("harrw;", "\u21ad"), ("hbar;", "\u210f"), ("hcirc;", "\u0125"), ("hearts;", "\u2665"),
  ("heartsuit;", "\u2665"), ("hellip;", "\u2026"), ("hercon;", "\u22b9"), ("hfr;", "𝔥"),
  ("hksearow;", "\u2925"), ("hkswarow;", "\u2926"), ("hoarr;", "\u21ff"), ("homtht;", "\u223b"),
  ("hookleftarrow;", "\u21a9"), ("hookrightarrow;", "\u21aa"), ("hopf;", "𝕙"),
  ("horbar;", "\u2015"), ("hscr;", "𝒽"), ("hslash;", "\u210f"), ("hstrok;", "\u0127"),
  ("hybull;", "\u2043"), ("hyphen;", "\u2010"), ("iacute", "\u00ed"), ("iacute;", "\u00ed"),
  ("ic;", "\u2063"), ("icirc", "\u00ee"), ("icirc;", "\u00ee"), ("icy;", "\u0438"),
  ("iecy;", "\u0435"), ("iexcl", "\u00a1"), ("iexcl;", "\u00a1"), ("iff;", "\u21d4"),
  ("ifr;", "𝔦"), ("igrave", "\u00ec"), ("igrave;", "\u00ec"), ("ii;", "\u2148"),
  ("iiiint;", "\u2a0c"), ("iiint;", "\u222d"), ("iinfin;", "\u29dc"), ("iiota;", "\u2129"),
  ("ijlig;", "\u0133"), ("imacr;", "\u012b"), ("image;", "\u2111"), ("imagline;", "\u2110"),
  ("imagpart;", "\u2111"), ("imath;", "\u0131"), ("imof;", "\u22b7"), ("imped;", "\u01b5"),
  ("in;", "\u2208"), ("incare;", "\u2105"), ("infin;", "\u221e"), ("infintie;", "\u29dd"),
  ("inodot;", "\u0131"), ("int;", "\u222b"), ("intcal;", "\u22ba"), ("integers;", "\u2124"),
  ("intercal;", "\u22ba"), ("intlarhk;", "\u2a17"), ("intprod;", "\u2a3c"), ("iocy;", "\u0451"),
  ("iogon;", "\u012f"), ("iopf;", "𝕚"), ("iota;", "\u03b9"), ("iprod;", "\u2a3c"),
  ("iquest", "\u00bf"), ("iquest;", "\u00bf"), ("iscr;", "𝒾"), ("isin;", "\u2208"),
  ("isinE;", "\u22f9"), ("isindot;", "\u22f5"), ("isins;", "\u22f4"), ("isinsv;", "\u22f3"),
  ("isinv;", "\u2208"), ("it;", "\u2062"), ("itilde;", "\u0129"), ("iukcy;", "\u0456"),
  ("iuml", "\u00ef"), ("iuml;", "\u00ef"), ("jcirc;", "\u0135"), ("jcy;", "\u0439"),
  ("jfr;", "𝔧"), ("jmath;", "\u0237"), ("jopf;", "𝕛"), ("jscr;", "𝒿"), ("jsercy;", "\u0458"),
  ("jukcy;", "\u0454"), ("kappa;", "\u03ba"), ("kappav;", "\u03f0"), ("kcedil;", "\u0137"),
  ("kcy;", "\u043a"), ("kfr;", "𝔨"), ("kgreen;", "\u0138"), ("khcy;", "\u0445"),
  ("kjcy;", "\u045c"), ("kopf;", "𝕜"), ("kscr;", "𝓀"), ("lAarr;", "\u21da"),
  ("lArr;", "\u21d0"), ("lAtail;", "\u291b"), ("lBarr;", "\u290e"), ("lE;", "\u2266"),
  ("lEg;", "\u2a8b"), ("lHar;", "\u2962"), ("lacute;", "\u013a"), ("laemptyv;", "\u29b4"),
  ("lagran;", "\u2112"), ("lambda;", "\u03bb"), ("lang;", "\u27e8"), ("langd;", "\u2991"),
  ("langle;", "\u27e8"), ("lap;", "\u2a85"), ("laquo", "\u00ab"), ("laquo;", "\u00ab"),
  ("larr;", "\u2190"), ("larrb;", "\u21e4"), ("larrbfs;", "\u291f"), ("larrfs;", "\u291d"),
  ("larrhk;", "\u21a9"), ("larrlp;", "\u21ab"), ("larrpl;", "\u2939"), ("larrsim;", "\u2973"),
  ("larrtl;", "\u21a2"), ("lat;", "\u2aab"), ("latail;", "\u2919"), ("late;", "\u2aad"),
  ("lates;", "\u2aad\ufe00"), ("lbarr;", "\u290c"), ("lbbrk;", "\u2772"), ("lbrace;", "\x7b"),
  ("lbrack;", "["), ("lbrke;", "\u298b"), ("lbrksld;", "\u298f"), ("lbrkslu;", "\u298d"),
  ("lcaron;", "\u013e"), ("lcedil;", "\u013c"), ("lceil;", "\u2308"), ("lcub;", "\x7b"),
  ("lcy;", "\u043b"), ("ldca;", "\u2936"), ("ldquo;", "\u201c"), ("ldquor;", "\u201e"),
  ("ldrdhar;", "\u2967"), ("ldrushar;", "\u294b"), ("ldsh;", "\u21b2"), ("le;", "\u2264"),
  ("leftarrow;", "\u2190"), ("leftarrowtail;", "\u21a2"), ("leftharpoondown;", "\u21bd"),
  ("leftharpoonup;", "\u21bc"), ("leftleftarrows;", "\u21c7"), ("leftrightarrow;", "\u2194"),
  ("leftrightarrows;", "\u21c6"), ("leftrightharpoons;", "\u21cb"), ("leftrightsquigarrow;", "\u21ad"),
  ("leftthreetimes;", "\u22cb"), ("leg;", "\u22da"), ("leq;", "\u2264"), ("leqq;", "\u2266"),
  ("leqslant;", "\u2a7d"), ("les;", "\u2a7d"), ("lescc;", "\u2aa8"), ("lesdot;", "\u2a7f"),
  ("lesdoto;", "\u2a81"), ("lesdotor;", "\u2a83"), ("lesg;", "\u22da\ufe00"),
  ("lesges;", "\u2a93"), ("lessapprox;", "\u2a85"), ("lessdot;", "\u22d6"), ("lesseqgtr;", "\u22da"),
  ("lesseqqgtr;", "\u2a8b"), ("lessgtr;", "\u2276"), ("lesssim;", "\u2272"),
  ("lfisht;", "\u297c"), ("lfloor;", "\u230a"), ("lfr;", "𝔩"), ("lg;", "\u2276"),
  ("lgE;", "\u2a91"), ("lhard;", "\u21bd"), ("lharu;", "\u21bc"), ("lharul;", "\u296a"),
  ("lhblk;", "\u2584"), ("ljcy;", "\u0459"), ("ll;", "\u226a"), ("llarr;", "\u21c7"),
  ("llcorner;", "\u231e"), ("llhard;", "\u296b"), ("lltri;", "\u25fa"), ("lmidot;", "\u0140"),
  ("lmoust;", "\u23b0"), ("lmoustache;", "\u23b0"), ("lnE;", "\u2268"), ("lnap;", "\u2a89"),
  ("lnapprox;", "\u2a89"), ("lne;", "\u2a87"), ("lneq;", "\u2a87"), ("lneqq;", "\u2268"),
  ("lnsim;", "\u22e6"), ("loang;", "\u27ec"), ("loarr;", "\u21fd"), ("lobrk;", "\u27e6"),
  ("longleftarrow;", "\u27f5"), ("longleftrightarrow;", "\u27f7"), ("longmapsto;", "\u27fc"),
  ("longrightarrow;", "\u27f6"), ("looparrowleft;", "\u21ab"), ("looparrowright;", "\u21ac"),
  ("lopar;", "\u2985"), ("lopf;", "𝕝"), ("loplus;", "\u2a2d"), ("lotimes;", "\u2a34"),
  ("lowast;", "\u2217"), ("lowbar;", "_"), ("loz;", "\u25ca"), ("lozenge;", "\u25ca"),
  ("lozf;", "\u29eb"), ("lpar;", "("), ("lparlt;", "\u2993"), ("lrarr;", "\u21c6"),
  ("lrcorner;", "\u231f"), ("lrhar;", "\u21cb"), ("lrhard;", "\u296d"), ("lrm;", "\u200e"),
  ("lrtri;", "\u22bf"), ("lsaquo;", "\u2039"), ("lscr;", "𝓁"), ("lsh;", "\u21b0"),
  ("lsim;", "\u2272"), ("lsime;", "\u2a8d"), ("lsimg;", "\u2a8f"), ("lsqb;", "["),
  ("lsquo;", "\u2018"), ("lsquor;", "\u201a"), ("lstrok;", "\u0142"), ("lt", "<"),
  ("lt;", "<"), ("ltcc;", "\u2aa6"), ("ltcir;", "\u2a79"), ("ltdot;", "\u22d6"),
  ("lthree;", "\u22cb"), ("ltimes;", "\u22c9"), ("ltlarr;", "\u2976"), ("ltquest;", "\u2a7b"),
  ("ltrPar;", "\u2996"), ("ltri;", "\u25c3"), ("ltrie;", "\u22b4"), ("ltrif;", "\u25c2"),
  ("lurdshar;", "\u294a"), ("luruhar;", "\u2966"), ("lvertneqq;", "\u2268\ufe00"),
  ("lvnE;", "\u2268\ufe00"), ("mDDot;", "\u223a"), ("macr", "\u00af"), ("macr;", "\u00af"),
  ("male;", "\u2642"), ("malt;", "\u2720"), ("maltese;", "\u2720"), ("map;", "\u21a6"),
  ("mapsto;", "\u21a6"), ("mapstodown;", "\u21a7"), ("mapstoleft;", "\u21a4"),
  ("mapstoup;", "\u21a5"), ("marker;", "\u25ae"), ("mcomma;", "\u2a29"), ("mcy;", "\u043c"),
  ("mdash;", "\u2014"), ("measuredangle;", "\u2221"), ("mfr;", "𝔪"), ("mho;", "\u2127"),
  ("micro", "\u00b5"), ("micro;", "\u00b5"), ("mid;", "\u2223"), ("midast;", "*"),
  ("midcir;", "\u2af0"), ("middot", "\u00b7"), ("middot;", "\u00b7"), ("minus;", "\u2212"),
  ("minusb;", "\u229f"), ("minusd;", "\u2238"), ("minusdu;", "\u2a2a"), ("mlcp;", "\u2adb"),
  ("mldr;", "\u2026"), ("mnplus;", "\u2213"), ("models;", "\u22a7"), ("mopf;", "𝕞"),
  ("mp;", "\u2213"), ("mscr;", "𝓂"), ("mstpos;", "\u223e"), ("mu;", "\u03bc"),
  ("multimap;", "\u22b8"), ("mumap;", "\u22b8"), ("nGg;", "\u22d9\u0338"), ("nGt;", "\u226b\u20d2"),
  ("nGtv;", "\u226b\u0338"), ("nLeftarrow;", "\u21cd"), ("nLeftrightarrow;", "\u21ce"),
  ("nLl;", "\u22d8\u0338"), ("nLt;", "\u226a\u20d2"), ("nLtv;", "\u226a\u0338"),
  ("nRightarrow;", "\u21cf"), ("nVDash;", "\u22af"), ("nVdash;", "\u22ae"), ("nabla;", "\u2207"),
  ("nacute;", "\u0144"), ("nang;", "\u2220\u20d2"), ("nap;", "\u2249"), ("napE;", "\u2a70\u0338"),
  ("napid;", "\u224b\u0338"), ("napos;", "\u0149"), ("napprox;", "\u2249"), ("natur;", "\u266e"),
  ("natural;", "\u266e"), ("naturals;", "\u2115"), ("nbsp", "\u00a0"), ("nbsp;", "\u00a0"),
  ("nbump;", "\u224e\u0338"), ("nbumpe;", "\u224f\u0338"), ("ncap;", "\u2a43"),
  ("ncaron;", "\u0148"), ("ncedil;", "\u0146"), ("ncong;", "\u2247"), ("ncongdot;", "\u2a6d\u0338"),
  ("ncup;", "\u2a42"), ("ncy;", "\u043d"), ("ndash;", "\u2013"), ("ne;", "\u2260"),
  ("neArr;", "\u21d7"), ("nearhk;", "\u2924"), ("nearr;", "\u2197"), ("nearrow;", "\u2197"),
  ("nedot;", "\u2250\u0338"), ("nequiv;", "\u2262"), ("nesear;", "\u2928"), ("nesim;", "\u2242\u0338"),
  ("nexist;", "\u2204"), ("nexists;", "\u2204"), ("nfr;", "𝔫"), ("ngE;", "\u2267\u0338"),
  ("nge;", "\u2271"), ("ngeq;", "\u2271"), ("ngeqq;", "\u2267\u0338"), ("ngeqslant;", "\u2a7e\u0338"),
  ("nges;", "\u2a7e\u0338"), ("ngsim;", "\u2275"), ("ngt;", "\u226f"), ("ngtr;", "\u226f"),
  ("nhArr;", "\u21ce"), ("nharr;", "\u21ae"), ("nhpar;", "\u2af2"), ("ni;", "\u220b"),
  ("nis;", "\u22fc"), ("nisd;", "\u22fa"), ("niv;", "\u220b"), ("njcy;", "\u045a"),
  ("nlArr;", "\u21cd"), ("nlE;", "\u2266\u0338"), ("nlarr;", "\u219a"), ("nldr;", "\u2025"),
  ("nle;", "\u2270"), ("nleftarrow;", "\u219a"), ("nleftrightarrow;", "\u21ae"),
  ("nleq;", "\u2270"), ("nleqq;", "\u2266\u0338"), ("nleqslant;", "\u2a7d\u0338"),
  ("nles;", "\u2a7d\u0338"), ("nless;", "\u226e"), ("nlsim;", "\u2274"), ("nlt;", "\u226e"),
  ("nltri;", "\u22ea"), ("nltrie;", "\u22ec"), ("nmid;", "\u2224"), ("nopf;", "𝕟"),
  ("not", "\u00ac"), ("not;", "\u00ac"), ("notin;", "\u2209"), ("notinE;", "\u22f9\u0338"),
  ("notindot;", "\u22f5\u0338"), ("notinva;", "\u2209"), ("notinvb;", "\u22f7"),
  ("notinvc;", "\u22f6"), ("notni;", "\u220c"), ("notniva;", "\u220c"), ("notnivb;", "\u22fe"),
  ("notnivc;", "\u22fd"), ("npar;", "\u2226"), ("nparallel;", "\u2226"), ("nparsl;", "\u2afd\u20e5"),
  ("npart;", "\u2202\u0338"), ("npolint;", "\u2a14"), ("npr;", "\u2280"), ("nprcue;", "\u22e0"),
  ("npre;", "\u2aaf\u0338"), ("nprec;", "\u2280"), ("npreceq;", "\u2aaf\u0338"),
  ("nrArr;", "\u21cf"), ("nrarr;", "\u219b"), ("nrarrc;", "\u2933\u0338"), ("nrarrw;", "\u219d\u0338"),
  ("nrightarrow;", "\u219b"), ("nrtri;", "\u22eb"), ("nrtrie;", "\u22ed"), ("nsc;", "\u2281"),
  ("nsccue;", "\u22e1"), ("nsce;", "\u2ab0\u0338"), ("nscr;", "𝓃"), ("nshortmid;", "\u2224"),
  ("nshortparallel;", "\u2226"), ("nsim;", "\u2241"), ("nsime;", "\u2244"), ("nsimeq;", "\u2244"),
  ("nsmid;", "\u2224"), ("nspar;", "\u2226"), ("nsqsube;", "\u22e2"), ("nsqsupe;", "\u22e3"),
  ("nsub;", "\u2284"), ("nsubE;", "\u2ac5\u0338"), ("nsube;", "\u2288"), ("nsubset;", "\u2282\u20d2"),
  ("nsubseteq;", "\u2288"), ("nsubseteqq;", "\u2ac5\u0338"), ("nsucc;", "\u2281"),
  ("nsucceq;", "\u2ab0\u0338"), ("nsup;", "\u2285"), ("nsupE;", "\u2ac6\u0338"),
  ("nsupe;", "\u2289"), ("nsupset;", "\u2283\u20d2"), ("nsupseteq;", "\u2289"),
  ("nsupseteqq;", "\u2ac6\u0338"), ("ntgl;", "\u2279"), ("ntilde", "\u00f1"),
  ("ntilde;", "\u00f1"), ("ntlg;", "\u2278"), ("ntriangleleft;", "\u22ea"), ("ntrianglelefteq;", "\u22ec"),
  ("ntriangleright;", "\u22eb"), ("ntrianglerighteq;", "\u22ed"), ("nu;", "\u03bd"),
  ("num;", "#"), ("numero;", "\u2116"), ("numsp;", "\u2007"), ("nvDash;", "\u22ad"),
  ("nvHarr;", "\u2904"), ("nvap;", "\u224d\u20d2"), ("nvdash;", "\u22ac"), ("nvge;", "\u2265\u20d2"),
  ("nvgt;", ">\u20d2"), ("nvinfin;", "\u29de"), ("nvlArr;", "\u2902"), ("nvle;", "\u2264\u20d2"),
  ("nvlt;", "<\u20d2"), ("nvltrie;", "\u22b4\u20d2"), ("nvrArr;", "\u2903"),
  ("nvrtrie;", "\u22b5\u20d2"), ("nvsim;", "\u223c\u20d2"), ("nwArr;", "\u21d6"),
  ("nwarhk;", "\u2923"), ("nwarr;", "\u2196"), ("nwarrow;", "\u2196"), ("nwnear;", "\u2927"),
  ("oS;", "\u24c8"), ("oacute", "\u00f3"), ("oacute;", "\u00f3"), ("oast;", "\u229b"),
  ("ocir;", "\u229a"), ("ocirc", "\u00f4"), ("ocirc;", "\u00f4"), ("ocy;", "\u043e"),
  ("odash;", "\u229d"), ("odblac;", "\u0151"), ("odiv;", "\u2a38"), ("odot;", "\u2299"),
  ("odsold;", "\u29bc"), ("oelig;", "\u0153"), ("ofcir;", "\u29bf"), ("ofr;", "𝔬"),
  ("ogon;", "\u02db"), ("ograve", "\u00f2"), ("ograve;", "\u00f2"), ("ogt;", "\u29c1"),
  ("ohbar;", "\u29b5"), ("ohm;", "\u03a9"), ("oint;", "\u222e"), ("olarr;", "\u21ba"),
  ("olcir;", "\u29be"), ("olcross;", "\u29bb"), ("oline;", "\u203e"), ("olt;", "\u29c0"),
  ("omacr;", "\u014d"), ("omega;", "\u03c9"), ("omicron;", "\u03bf"), ("omid;", "\u29b6"),
  ("ominus;", "\u2296"), ("oopf;", "𝕠"), ("opar;", "\u29b7"), ("operp;", "\u29b9"),
  ("oplus;", "\u2295"), ("or;", "\u2228"), ("orarr;", "\u21bb"), ("ord;", "\u2a5d"),
  ("order;", "\u2134"), ("orderof;", "\u2134"), ("ordf", "\u00aa"), ("ordf;", "\u00aa"),
  ("ordm", "\u00ba"), ("ordm;", "\u00ba"), ("origof;", "\u22b6"), ("oror;", "\u2a56"),
  ("orslope;", "\u2a57"), ("orv;", "\u2a5b"), ("oscr;", "\u2134"), ("oslash", "\u00f8"),
  ("oslash;", "\u00f8"), ("osol;", "\u2298"), ("otilde", "\u00f5"), ("otilde;", "\u00f5"),
  ("otimes;", "\u2297"), ("otimesas;", "\u2a36"), ("ouml", "\u00f6"), ("ouml;", "\u00f6"),
  ("ovbar;", "\u233d"), ("par;", "\u2225"), ("para", "\u00b6"), ("para;", "\u00b6"),
  ("parallel;", "\u2225"), ("parsim;", "\u2af3"), ("parsl;", "\u2afd"), ("part;", "\u2202"),
  ("pcy;", "\u043f"), ("percnt;", "%"), ("period;", "."), ("permil;", "\u2030"),
  ("perp;", "\u22a5"), ("pertenk;", "\u2031"), ("pfr;", "𝔭"), ("phi;", "\u03c6"),
  ("phiv;", "\u03d5"), ("phmmat;", "\u2133"), ("phone;", "\u260e"), ("pi;", "\u03c0"),
  ("pitchfork;", "\u22d4"), ("piv;", "\u03d6"), ("planck;", "\u210f"), ("planckh;", "\u210e"),
  ("plankv;", "\u210f"), ("plus;", "+"), ("plusacir;", "\u2a23"), ("plusb;", "\u229e"),
  ("pluscir;", "\u2a22"), ("plusdo;", "\u2214"), ("plusdu;", "\u2a25"), ("pluse;", "\u2a72"),
  ("plusmn", "\u00b1"), ("plusmn;", "\u00b1"), ("plussim;", "\u2a26"), ("plustwo;", "\u2a27"),
  ("pm;", "\u00b1"), ("pointint;", "\u2a15"), ("popf;", "𝕡"), ("pound", "\u00a3"),
  ("pound;", "\u00a3"), ("pr;", "\u227a"), ("prE;", "\u2ab3"), ("prap;", "\u2ab7"),
  ("prcue;", "\u227c"), ("pre;", "\u2aaf"), ("prec;", "\u227a"), ("precapprox;", "\u2ab7"),
  ("preccurlyeq;", "\u227c"), ("preceq;", "\u2aaf"), ("precnapprox;", "\u2ab9"),
  ("precneqq;", "\u2ab5"), ("precnsim;", "\u22e8"), ("precsim;", "\u227e"), ("prime;", "\u2032"),
  ("primes;", "\u2119"), ("prnE;", "\u2ab5"), ("prnap;", "\u2ab9"), ("prnsim;", "\u22e8"),
  ("prod;", "\u220f"), ("profalar;", "\u232e"), ("profline;", "\u2312"), ("profsurf;", "\u2313"),
  ("prop;", "\u221d"), ("propto;", "\u221d"), ("prsim;", "\u227e"), ("prurel;", "\u22b0"),
  ("pscr;", "𝓅"), ("psi;", "\u03c8"), ("puncsp;", "\u2008"), ("qfr;", "𝔮"), ("qint;", "\u2a0c"),
  ("qopf;", "𝕢"), ("qprime;", "\u2057"), ("qscr;", "𝓆"), ("quaternions;", "\u210d"),
  ("quatint;", "\u2a16"), ("quest;", "?"), ("questeq;", "\u225f"), ("quot", "\""),
  ("quot;", "\""), ("rAarr;", "\u21db"), ("rArr;", "\u21d2"), ("rAtail;", "\u291c"),
  ("rBarr;", "\u290f"), ("rHar;", "\u2964"), ("race;", "\u223d\u0331"), ("racute;", "\u0155"),
  ("radic;", "\u221a"), ("raemptyv;", "\u29b3"), ("rang;", "\u27e9"), ("rangd;", "\u2992"),
  ("range;", "\u29a5"), ("rangle;", "\u27e9"), ("raquo", "\u00bb"), ("raquo;", "\u00bb"),
  ("rarr;", "\u2192"), ("rarrap;", "\u2975"), ("rarrb;", "\u21e5"), ("rarrbfs;", "\u2920"),
  ("rarrc;", "\u2933"), ("rarrfs;", "\u291e"), ("rarrhk;", "\u21aa"), ("rarrlp;", "\u21ac"),
  ("rarrpl;", "\u2945"), ("rarrsim;", "\u2974"), ("rarrtl;", "\u21a3"), ("rarrw;", "\u219d"),
  ("ratail;", "\u291a"), ("ratio;", "\u2236"), ("rationals;", "\u211a"), ("rbarr;", "\u290d"),
  ("rbbrk;", "\u2773"), ("rbrace;", "\x7d"), ("rbrack;", "]"), ("rbrke;", "\u298c"),
  ("rbrksld;", "\u298e"), ("rbrkslu;", "\u2990"), ("rcaron;", "\u0159"), ("rcedil;", "\u0157"),
  ("rceil;", "\u2309"), ("rcub;", "\x7d"), ("rcy;", "\u0440"), ("rdca;", "\u2937"),
  ("rdldhar;", "\u2969"), ("rdquo;", "\u201d"), ("rdquor;", "\u201d"), ("rdsh;", "\u21b3"),
  ("real;", "\u211c"), ("realine;", "\u211b"), ("realpart;", "\u211c"), ("reals;", "\u211d"),
  ("rect;", "\u25ad"), ("reg", "\u00ae"), ("reg;", "\u00ae"), ("rfisht;", "\u297d"),
  ("rfloor;", "\u230b"), ("rfr;", "𝔯"), ("rhard;", "\u21c1"), ("rharu;", "\u21c0"),
  ("rharul;", "\u296c"), ("rho;", "\u03c1"), ("rhov;", "\u03f1"), ("rightarrow;", "\u2192"),
  ("rightarrowtail;", "\u21a3"), ("rightharpoondown;", "\u21c1"), ("rightharpoonup;", "\u21c0"),
  ("rightleftarrows;", "\u21c4"), ("rightleftharpoons;", "\u21cc"), ("rightrightarrows;", "\u21c9"),
  ("rightsquigarrow;", "\u219d"), ("rightthreetimes;", "\u22cc"), ("ring;", "\u02da"),
  ("risingdotseq;", "\u2253"), ("rlarr;", "\u21c4"), ("rlhar;", "\u21cc"), ("rlm;", "\u200f"),
  ("rmoust;", "\u23b1"), ("rmoustache;", "\u23b1"), ("rnmid;", "\u2aee"), ("roang;", "\u27ed"),
  ("roarr;", "\u21fe"), ("robrk;", "\u27e7"), ("ropar;", "\u2986"), ("ropf;", "𝕣"),
  ("roplus;", "\u2a2e"), ("rotimes;", "\u2a35"), ("rpar;", ")"), ("rpargt;", "\u2994"),
  ("rppolint;", "\u2a12"), ("rrarr;", "\u21c9"), ("rsaquo;", "\u203a"), ("rscr;", "𝓇"),
  ("rsh;", "\u21b1"), ("rsqb;", "]"), ("rsquo;", "\u2019"), ("rsquor;", "\u2019"),
  ("rthree;", "\u22cc"), ("rtimes;", "\u22ca"), ("rtri;", "\u25b9"), ("rtrie;", "\u22b5"),
  ("rtrif;", "\u25b8"), ("rtriltri;", "\u29ce"), ("ruluhar;", "\u2968"), ("rx;", "\u211e"),
  ("sacute;", "\u015b"), ("sbquo;", "\u201a"), ("sc;", "\u227b"), ("scE;", "\u2ab4"),
  ("scap;", "\u2ab8"), ("scaron;", "\u0161"), ("sccue;", "\u227d"), ("sce;", "\u2ab0"),
  ("scedil;", "\u015f"), ("scirc;", "\u015d"), ("scnE;", "\u2ab6"), ("scnap;", "\u2aba"),
  ("scnsim;", "\u22e9"), ("scpolint;", "\u2a13"), ("scsim;", "\u227f"), ("scy;", "\u0441"),
  ("sdot;", "\u22c5"), ("sdotb;", "\u22a1"), ("sdote;", "\u2a66"), ("seArr;", "\u21d8"),
  ("searhk;", "\u2925"), ("searr;", "\u2198"), ("searrow;", "\u2198"), ("sect", "\u00a7"),
  ("sect;", "\u00a7"), ("semi;", ";"), ("seswar;", "\u2929"), ("setminus;", "\u2216"),
  ("setmn;", "\u2216"), ("sext;", "\u2736"), ("sfr;", "𝔰"), ("sfrown;", "\u2322"),
  ("sharp;", "\u266f"), ("shchcy;", "\u0449"), ("shcy;", "\u0448"), ("shortmid;", "\u2223"),
  ("shortparallel;", "\u2225"), ("shy", "\u00ad"), ("shy;", "\u00ad"), ("sigma;", "\u03c3"),
  ("sigmaf;", "\u03c2"), ("sigmav;", "\u03c2"), ("sim;", "\u223c"), ("simdot;", "\u2a6a"),
  ("sime;", "\u2243"), ("simeq;", "\u2243"), ("simg;", "\u2a9e"), ("simgE;", "\u2aa0"),
  ("siml;", "\u2a9d"), ("simlE;", "\u2a9f"), ("simne;", "\u2246"), ("simplus;", "\u2a24"),
  ("simrarr;", "\u2972"), ("slarr;", "\u2190"), ("smallsetminus;", "\u2216"),
  ("smashp;", "\u2a33"), ("smeparsl;", "\u29e4"), ("smid;", "\u2223"), ("smile;", "\u2323"),
  ("smt;", "\u2aaa"), ("smte;", "\u2aac"), ("smtes;", "\u2aac\ufe00"), ("softcy;", "\u044c"),
  ("sol;", "/"), ("solb;", "\u29c4"), ("solbar;", "\u233f"), ("sopf;", "𝕤"),
  ("spades;", "\u2660"), ("spadesuit;", "\u2660"), ("spar;", "\u2225"), ("sqcap;", "\u2293"),
  ("sqcaps;", "\u2293\ufe00"), ("sqcup;", "\u2294"), ("sqcups;", "\u2294\ufe00"),
  ("sqsub;", "\u228f"), ("sqsube;", "\u2291"), ("sqsubset;", "\u228f"), ("sqsubseteq;", "\u2291"),
  ("sqsup;", "\u2290"), ("sqsupe;", "\u2292"), ("sqsupset;", "\u2290"), ("sqsupseteq;", "\u2292"),
  ("squ;", "\u25a1"), ("square;", "\u25a1"), ("squarf;", "\u25aa"), ("squf;", "\u25aa"),
  ("srarr;", "\u2192"), ("sscr;", "𝓈"), ("ssetmn;", "\u2216"), ("ssmile;", "\u2323"),
  ("sstarf;", "\u22c6"), ("star;", "\u2606"), ("starf;", "\u2605"), ("straightepsilon;", "\u03f5"),
  ("straightphi;", "\u03d5"), ("strns;", "\u00af"), ("sub;", "\u2282"), ("subE;", "\u2ac5"),
  ("subdot;", "\u2abd"), ("sube;", "\u2286"), ("subedot;", "\u2ac3"), ("submult;", "\u2ac1"),
  ("subnE;", "\u2acb"), ("subne;", "\u228a"), ("subplus;", "\u2abf"), ("subrarr;", "\u2979"),
  ("subset;", "\u2282"), ("subseteq;", "\u2286"), ("subseteqq;", "\u2ac5"), ("subsetneq;", "\u228a"),
  ("subsetneqq;", "\u2acb"), ("subsim;", "\u2ac7"), ("subsub;", "\u2ad5"), ("subsup;", "\u2ad3"),
  ("succ;", "\u227b"), ("succapprox;", "\u2ab8"), ("succcurlyeq;", "\u227d"),
  ("succeq;", "\u2ab0"), ("succnapprox;", "\u2aba"), ("succneqq;", "\u2ab6"),
  ("succnsim;", "\u22e9"), ("succsim;", "\u227f"), ("sum;", "\u2211"), ("sung;", "\u266a"),
  ("sup1", "\u00b9"), ("sup1;", "\u00b9"), ("sup2", "\u00b2"), ("sup2;", "\u00b2"),
  ("sup3", "\u00b3"), ("sup3;", "\u00b3"), ("sup;", "\u2283"), ("supE;", "\u2ac6"),
  ("supdot;", "\u2abe"), ("supdsub;", "\u2ad8"), ("supe;", "\u2287"), ("supedot;", "\u2ac4"),
  ("suphsol;", "\u27c9"), ("suphsub;", "\u2ad7"), ("suplarr;", "\u297b"), ("supmult;", "\u2ac2"),
  ("supnE;", "\u2acc"), ("supne;", "\u228b"), ("supplus;", "\u2ac0"), ("supset;", "\u2283"),
  ("supseteq;", "\u2287"), ("supseteqq;", "\u2ac6"), ("supsetneq;", "\u228b"),
  ("supsetneqq;", "\u2acc"), ("supsim;", "\u2ac8"), ("supsub;", "\u2ad4"), ("supsup;", "\u2ad6"),
  ("swArr;", "\u21d9"), ("swarhk;", "\u2926"), ("swarr;", "\u2199"), ("swarrow;", "\u2199"),
  ("swnwar;", "\u292a"), ("szlig", "\u00df"), ("szlig;", "\u00df"), ("target;", "\u2316"),
  ("tau;", "\u03c4"), ("tbrk;", "\u23b4"), ("tcaron;", "\u0165"), ("tcedil;", "\u0163"),
  ("tcy;", "\u0442"), ("tdot;", "\u20db"), ("telrec;", "\u2315"), ("tfr;", "𝔱"),
  ("there4;", "\u2234"), ("therefore;", "\u2234"), ("theta;", "\u03b8"), ("thetasym;", "\u03d1"),
  ("thetav;", "\u03d1"), ("thickapprox;", "\u2248"), ("thicksim;", "\u223c"),
  ("thinsp;", "\u2009"), ("thkap;", "\u2248"), ("thksim;", "\u223c"), ("thorn", "\u00fe"),
  ("thorn;", "\u00fe"), ("tilde;", "\u02dc"), ("times", "\u00d7"), ("times;", "\u00d7"),
  ("timesb;", "\u22a0"), ("timesbar;", "\u2a31"), ("timesd;", "\u2a30"), ("tint;", "\u222d"),
  ("toea;", "\u2928"), ("top;", "\u22a4"), ("topbot;", "\u2336"), ("topcir;", "\u2af1"),
  ("topf;", "𝕥"), ("topfork;", "\u2ada"), ("tosa;", "\u2929"), ("tprime;", "\u2034"),
  ("trade;", "\u2122"), ("triangle;", "\u25b5"), ("triangledown;", "\u25bf"),
  ("triangleleft;", "\u25c3"), ("trianglelefteq;", "\u22b4"), ("triangleq;", "\u225c"),
  ("triangleright;", "\u25b9"), ("trianglerighteq;", "\u22b5"), ("tridot;", "\u25ec"),
  ("trie;", "\u225c"), ("triminus;", "\u2a3a"), ("triplus;", "\u2a39"), ("trisb;", "\u29cd"),
  ("tritime;", "\u2a3b"), ("trpezium;", "\u23e2"), ("tscr;", "𝓉"), ("tscy;", "\u0446"),
  ("tshcy;", "\u045b"), ("tstrok;", "\u0167"), ("twixt;", "\u226c"), ("twoheadleftarrow;", "\u219e"),
  ("twoheadrightarrow;", "\u21a0"), ("uArr;", "\u21d1"), ("uHar;", "\u2963"),
  ("uacute", "\u00fa"), ("uacute;", "\u00fa"), ("uarr;", "\u2191"), ("ubrcy;", "\u045e"),
  ("ubreve;", "\u016d"), ("ucirc", "\u00fb"), ("ucirc;", "\u00fb"), ("ucy;", "\u0443"),
  ("udarr;", "\u21c5"), ("udblac;", "\u0171"), ("udhar;", "\u296e"), ("ufisht;", "\u297e"),
  ("ufr;", "𝔲"), ("ugrave", "\u00f9"), ("ugrave;", "\u00f9"), ("uharl;", "\u21bf"),
  ("uharr;", "\u21be"), ("uhblk;", "\u2580"), ("ulcorn;", "\u231c"), ("ulcorner;", "\u231c"),
  ("ulcrop;", "\u230f"), ("ultri;", "\u25f8"), ("umacr;", "\u016b"), ("uml", "\u00a8"),
  ("uml;", "\u00a8"), ("uogon;", "\u0173"), ("uopf;", "𝕦"), ("uparrow;", "\u2191"),
  ("updownarrow;", "\u2195"), ("upharpoonleft;", "\u21bf"), ("upharpoonright;", "\u21be"),
  ("uplus;", "\u228e"), ("upsi;", "\u03c5"), ("upsih;", "\u03d2"), ("upsilon;", "\u03c5"),
  ("upuparrows;", "\u21c8"), ("urcorn;", "\u231d"), ("urcorner;", "\u231d"),
  ("urcrop;", "\u230e"), ("uring;", "\u016f"), ("urtri;", "\u25f9"), ("uscr;", "𝓊"),
  ("utdot;", "\u22f0"), ("utilde;", "\u0169"), ("utri;", "\u25b5"), ("utrif;", "\u25b4"),
  ("uuarr;", "\u21c8"), ("uuml", "\u00fc"), ("uuml;", "\u00fc"), ("uwangle;", "\u29a7"),
  ("vArr;", "\u21d5"), ("vBar;", "\u2ae8"), ("vBarv;", "\u2ae9"), ("vDash;", "\u22a8"),
  ("vangrt;", "\u299c"), ("varepsilon;", "\u03f5"), ("varkappa;", "\u03f0"),
  ("varnothing;", "\u2205"), ("varphi;", "\u03d5"), ("varpi;", "\u03d6"), ("varpropto;", "\u221d"),
  ("varr;", "\u2195"), ("varrho;", "\u03f1"), ("varsigma;", "\u03c2"), ("varsubsetneq;", "\u228a\ufe00"),
  ("varsubsetneqq;", "\u2acb\ufe00"), ("varsupsetneq;", "\u228b\ufe00"), ("varsupsetneqq;", "\u2acc\ufe00"),
  ("vartheta;", "\u03d1"), ("vartriangleleft;", "\u22b2"), ("vartriangleright;", "\u22b3"),
  ("vcy;", "\u0432"), ("vdash;", "\u22a2"), ("vee;", "\u2228"), ("veebar;", "\u22bb"),
  ("veeeq;", "\u225a"), ("vellip;", "\u22ee"), ("verbar;", "|"), ("vert;", "|"),
  ("vfr;", "𝔳"), ("vltri;", "\u22b2"), ("vnsub;", "\u2282\u20d2"), ("vnsup;", "\u2283\u20d2"),
  ("vopf;", "𝕧"), ("vprop;", "\u221d"), ("vrtri;", "\u22b3"), ("vscr;", "𝓋"),
  ("vsubnE;", "\u2acb\ufe00"), ("vsubne;", "\u228a\ufe00"), ("vsupnE;", "\u2acc\ufe00"),
  ("vsupne;", "\u228b\ufe00"), ("vzigzag;", "\u299a"), ("wcirc;", "\u0175"),
  ("wedbar;", "\u2a5f"), ("wedge;", "\u2227"), ("wedgeq;", "\u2259"), ("weierp;", "\u2118"),
  ("wfr;", "𝔴"), ("wopf;", "𝕨"), ("wp;", "\u2118"), ("wr;", "\u2240"), ("wreath;", "\u2240"),
  ("wscr;", "𝓌"), ("xcap;", "\u22c2"), ("xcirc;", "\u25ef"), ("xcup;", "\u22c3"),
  ("xdtri;", "\u25bd"), ("xfr;", "𝔵"), ("xhArr;", "\u27fa"), ("xharr;", "\u27f7"),
  ("xi;", "\u03be"), ("xlArr;", "\u27f8"), ("xlarr;", "\u27f5"), ("xmap;", "\u27fc"),
  ("xnis;", "\u22fb"), ("xodot;", "\u2a00"), ("xopf;", "𝕩"), ("xoplus;", "\u2a01"),
  ("xotime;", "\u2a02"), ("xrArr;", "\u27f9"), ("xrarr;", "\u27f6"), ("xscr;", "𝓍"),
  ("xsqcup;", "\u2a06"), ("xuplus;", "\u2a04"), ("xutri;", "\u25b3"), ("xvee;", "\u22c1"),
  ("xwedge;", "\u22c0"), ("yacute", "\u00fd"), ("yacute;", "\u00fd"), ("yacy;", "\u044f"),
  ("ycirc;", "\u0177"), ("ycy;", "\u044b"), ("yen", "\u00a5"), ("yen;", "\u00a5"),
  ("yfr;", "𝔶"), ("yicy;", "\u0457"), ("yopf;", "𝕪"), ("yscr;", "𝓎"), ("yucy;", "\u044e"),
  ("yuml", "\u00ff"), ("yuml;", "\u00ff"), ("zacute;", "\u017a"), ("zcaron;", "\u017e"),
  ("zcy;", "\u0437"), ("zdot;", "\u017c"), ("zeetrf;", "\u2128"), ("zeta;", "\u03b6"),
  ("zfr;", "𝔷"), ("zhcy;", "\u0436"), ("zigrarr;", "\u21dd"), ("zopf;", "𝕫"),
  ("zscr;", "𝓏"), ("zwj;", "\u200d"), ("zwnj;", "\u200c")]

/-- The invalid-numeric-reference replacements of Python html.unescape
(html._invalid_charrefs): the C1-range windows-1252 remapping plus the
null and carriage-return rules of the HTML5 standard. -/
def invalidCharrefs : List (Nat × String) := [
  (0, "\ufffd"), (13, "\x0d"), (128, "\u20ac"), (129, "\u0081"), (130, "\u201a"),
  (131, "\u0192"), (132, "\u201e"), (133, "\u2026"), (134, "\u2020"), (135, "\u2021"),
  (136, "\u02c6"), (137, "\u2030"), (138, "\u0160"), (139, "\u2039"), (140, "\u0152"),
  (141, "\u008d"), (142, "\u017d"), (143, "\u008f"), (144, "\u0090"), (145, "\u2018"),
  (146, "\u2019"), (147, "\u201c"), (148, "\u201d"), (149, "\u2022"), (150, "\u2013"),
  (151, "\u2014"), (152, "\u02dc"), (153, "\u2122"), (154, "\u0161"), (155, "\u203a"),
  (156, "\u0153"), (157, "\u009d"), (158, "\u017e"), (159, "\u0178")]

/-- The numeric references dropped entirely by Python html.unescape
(html._invalid_codepoints). -/
def invalidCodepoints : List Nat := [
  1, 2, 3, 4, 5, 6, 7, 8, 11, 14, 15, 16, 17, 18, 19, 20, 21, 22, 23, 24, 25,
  26, 27, 28, 29, 30, 31, 127, 128, 129, 130, 131, 132, 133, 134, 135, 136, 137,
  138, 139, 140, 141, 142, 143, 144, 145, 146, 147, 148, 149, 150, 151, 152,
  153, 154, 155, 156, 157, 158, 159, 64976, 64977, 64978, 64979, 64980, 64981,
  64982, 64983, 64984, 64985, 64986, 64987, 64988, 64989, 64990, 64991, 64992,
  64993, 64994, 64995, 64996, 64997, 64998, 64999, 65000, 65001, 65002, 65003,
  65004, 65005, 65006, 65007, 65534, 65535, 131070, 131071, 196606, 196607, 262142,
  262143, 327678, 327679, 393214, 393215, 458750, 458751, 524286, 524287, 589822,
  589823, 655358, 655359, 720894, 720895, 786430, 786431, 851966, 851967, 917502,
  917503, 983038, 983039, 1048574, 1048575, 1114110, 1114111]


/-- Hexadecimal digit of the numeric-reference pattern. -/
def isHexDigitCh (c : Char) : Bool :=
  c.isDigit || (97 ≤ c.toNat && c.toNat ≤ 102) || (65 ≤ c.toNat && c.toNat ≤ 70)

/-- Value of a hexadecimal digit. -/
def hexDigitVal (c : Char) : Nat :=
  if c.isDigit then c.toNat - 48
  else if 97 ≤ c.toNat then c.toNat - 87
  else c.toNat - 55

/-- Numeric value of a string of hexadecimal digits. -/
def hexToNat (ds : List Char) : Nat :=
  ds.foldl (fun acc c => acc * 16 + hexDigitVal c) 0

/-- Name characters of the named-reference pattern of html.unescape: every
character except tab, newline, form feed, space, less-than, ampersand,
hash and semicolon. -/
def isCharrefNameChar (c : Char) : Bool :=
  !(c == '\t' || c == '\n' || c == '\x0c' || c == ' ' || c == '<' || c == '&'
    || c == '#' || c == ';')

/-- Lookup in the HTML5 named reference table. -/
def html5Lookup (k : List Char) : Option (List Char) :=
  (html5Table.find? (fun e => e.1.data == k)).map (fun e => e.2.data)

/-- Replacement text for a numeric character reference of the given value,
as computed by the numeric branch of html.unescape: the table of invalid
references (null, carriage return and the windows-1252 remapping of the C1
range), the replacement character for surrogates and values beyond the
last code point, removal of the invalid code points, and the code point
itself otherwise. -/
def charrefNumeric (num : Nat) : List Char :=
  match invalidCharrefs.find? (fun e => e.1 == num) with
  | some e => e.2.data
  | none =>
    if (55296 ≤ num ∧ num ≤ 57343) ∨ 1114111 < num then [Char.ofNat 65533]
    else if invalidCodepoints.contains num then []
    else [Char.ofNat num]

/-- Longest-known-prefix lookup of html.unescape for named references: try
prefixes of the captured text from the longest proper prefix down to
length two, appending the unconsumed remainder. -/
def namedPrefixLookup (s : List Char) : Nat → Option (List Char)
  | 0 => none
  | x + 1 =>
    if x + 1 < 2 then none
    else
      match html5Lookup (s.take (x + 1)) with
      | some rep => some (rep ++ s.drop (x + 1))
      | none => namedPrefixLookup s x

/-- Named-reference replacement of html.unescape: the full captured text
when it is in the table, else its longest known prefix of length at least
two followed by the remainder, else nothing (the text passes through
unchanged). -/
def namedLookup (s : List Char) : Option (List Char) :=
  match html5Lookup s with
  | some rep => some rep
  | none => namedPrefixLookup s (s.length - 1)

/-- One character reference after an ampersand, following the charref
pattern of html.unescape: a decimal or hexadecimal numeric reference with
an optional trailing semicolon, or one to thirty-two name characters with
an optional trailing semicolon.  Returns the replacement text and the
number of characters consumed after the ampersand; none leaves the
ampersand and the following text unchanged (as the unknown-name branch of
html.unescape does, since it substitutes the match for itself). -/
def tryCharref (rest : List Char) : Option (List Char × Nat) :=
  match rest with
  | '#' :: r1 =>
    (match r1 with
     | x :: r2 =>
       if x == 'x' || x == 'X' then
         let ds := r2.takeWhile isHexDigitCh
         if ds = [] then none
         else
           match r2.drop ds.length with
           | ';' :: _ => some (charrefNumeric (hexToNat ds), 2 + ds.length + 1)
           | _ => some (charrefNumeric (hexToNat ds), 2 + ds.length)
       else
         let ds := r1.takeWhile Char.isDigit
         if ds = [] then none
         else
           match r1.drop ds.length with
           | ';' :: _ => some (charrefNumeric (digitsToNat ds), 1 + ds.length + 1)
           | _ => some (charrefNumeric (digitsToNat ds), 1 + ds.length)
     | [] => none)
  | _ =>
    let name := (rest.takeWhile isCharrefNameChar).take 32
    if name = [] then none
    else
      match rest.drop name.length with
      | ';' :: _ =>
        (match namedLookup (name ++ [';']) with
         | some rep => some (rep, name.length + 1)
         | none => none)
      | _ =>
        (match namedLookup name with
         | some rep => some (rep, name.length)
         | none => none)

/-- Fuelled single-pass scanner of html.unescape: each ampersand starting
a recognized character reference is replaced (the replacement is not
rescanned, as re.sub performs a single pass); every other character is
kept. -/
def htmlUnescapeAux : Nat → List Char → List Char
  | 0, cs => cs
  | _, [] => []
  | fuel + 1, '&' :: rest =>
    (match tryCharref rest with
     | some (rep, consumed) => rep ++ htmlUnescapeAux fuel (rest.drop consumed)
     | none => '&' :: htmlUnescapeAux fuel rest)
  | fuel + 1, c :: rest => c :: htmlUnescapeAux fuel rest

/-- HTML entity decoding: model of Python html.unescape (named references
from the full HTML5 table with longest-prefix fallback, decimal and
hexadecimal numeric references with the invalid-reference rules). -/
def htmlUnescape (cs : List Char) : List Char := htmlUnescapeAux (cs.length + 1) cs

/-! ### The attribute-carrying-tag pattern

Pattern <[^>]+ATTR=["quote]?ANCHOR["quote]?[^>]*> , used by
_extract_by_id_anchor (v1, ATTR = id) and _simple_anchor_processing (v2,
ATTR = id then name). -/

/-- After the anchor value: optional quote then [^>]*> , which holds iff a
later > exists in the remainder. -/
def anchorTailGt (anchorL rest : List Char) : Bool :=
  if startsWithCI anchorL rest then
    let r := rest.drop anchorL.length
    (match r with
     | q :: r2 => isQuote q && r2.contains '>'
     | [] => false)
      || r.contains '>'
  else false

/-- After ATTR= : optional opening quote then the anchor value and tag
close. -/
def attrValThenGt (anchorL rest : List Char) : Bool :=
  (match rest with
   | q :: rest2 => isQuote q && anchorTailGt anchorL rest2
   | [] => false)
  || anchorTailGt anchorL rest

/-- Try the literal ATTR= at this position inside the tag. -/
def tryAttrEq (attrL anchorL cs : List Char) : Bool :=
  match dropCIPre attrL cs with
  | none => false
  | some rest => attrValThenGt anchorL rest

/-- Scan of the class [^>]+ before ATTR= : consume at least one non->
character, then try ATTR= at every later position still before > . -/
def attrTagScan (attrL anchorL : List Char) : List Char → Bool
  | [] => false
  | c :: rest =>
    if c == '>' then false
    else tryAttrEq attrL anchorL rest || attrTagScan attrL anchorL rest

/-- Pattern <[^>]+ATTR=["quote]?ANCHOR["quote]?[^>]*> at the start of the
suffix. -/
def matchAttrTagAt (attrL anchorL : List Char) : List Char → Bool
  | '<' :: rest => attrTagScan attrL anchorL rest
  | _ => false

/-- Length of the match of the id-tag pattern starting at position s: the
classes inside the tag cannot cross > , so (for anchor values without a >
character, the only kind that occurs) the match extends to the first >
after the opening < , inclusive. -/
def matchIdTagLen (content : List Char) (s : Nat) : Nat :=
  match findCharIdx '>' (content.drop (s + 1)) with
  | some k => k + 2
  | none => 0

/-! ### Data model: archive, navigation tree, chapters -/

/-- Resource name before the first # of an href (str.split result 0). -/
def hrefFile (h : List Char) : List Char := h.takeWhile (fun c => c != '#')

/-- Fragment after the first # of an href (str.split result 1). -/
def hrefFrag (h : List Char) : List Char := (h.dropWhile (fun c => c != '#')).drop 1

/-- Media type of a manifest item (ebooklib item types). -/
inductive ItemType where
  | document
  | image
  | other
deriving DecidableEq, Repr

/-- A manifest item: identifier, archive name, media type, and the UTF-8
decoding of its raw bytes (none when the bytes are not valid UTF-8, in
which case get_content().decode raises). -/
structure Item where
  iid : List Char
  name : List Char
  itype : ItemType
  contentUtf8 : Option (List Char)
deriving DecidableEq, Repr

/-- A navigation-tree node: an ebooklib Link, or a (Section, children)
tuple; both carry a title and an href. -/
inductive TocNode where
  | link (title href : List Char)
  | sect (title href : List Char) (children : List TocNode)
deriving Repr

/-- A loaded archive: navigation tree, spine of (item id, linear flag)
pairs, and manifest items in get_items order. -/
structure Book where
  toc : List TocNode
  spine : List (List Char × Bool)
  items : List Item

/-- The output unit: (chapter_title, chapter_content, chapter_id). -/
structure Chapter where
  title : List Char
  content : List Char
  identifier : List Char
deriving DecidableEq, Repr

/-- First manifest item with the given id (the _get_item_by_id fallback
loop of v1 and get_item_with_id of v2). -/
def findItemById (bk : Book) (iid : List Char) : Option Item :=
  bk.items.find? (fun it => it.iid == iid)

/-- First document item with the given archive name (the get_items loop of
_get_item_content). -/
def findDocByName (bk : Book) (nm : List Char) : Option Item :=
  bk.items.find? (fun it => it.name == nm && it.itype == ItemType.document)

/-- Default English chapter title Chapter N. -/
def chapterDefaultEn (n : Nat) : List Char := str "Chapter " ++ natToChars n

/-- Synthetic chapter identifier chapter_N of the re-splitter. -/
def chapterTag (n : Nat) : List Char := str "chapter_" ++ natToChars n

/-! ### v1 anchor resolution (epub_exporter.py) -/

/-- Model of _smart_split_content: fallback when the exact anchor is not found.  If
the document exceeds 10000 characters and the full-element pattern
<h[1-4][^>]*>(.*?)</h[1-4]> has more than one (non-overlapping) match,
return the stripped slice between the first two match starts; otherwise the
original content.  The href argument is accepted and ignored, as in the
source. -/
def smart_split_content (content _href : List Char) : List Char :=
  if 10000 < content.length then
    let headings := finditer (matchHElemAt 4 false) content
    if 1 < headings.length then
      match headings with
      | (s1, _) :: (s2, _) :: _ => trimWS (sliceList content s1 s2)
      | _ => content
    else content
  else content

/-- The heuristic end search of _extract_by_filepos: the first match of the
first matching pattern among heading open tag, filepos id attribute and
chapter-class div, searched in content from offset s + 100; the document
length when none matches. -/
def heuristicEnd (content : List Char) (s : Nat) : Nat :=
  let tail := content.drop (s + 100)
  match findFirst matchHeadingOpenAt tail with
  | some m => s + 100 + m
  | none =>
    match findFirst matchFileposIdAt tail with
    | some m => s + 100 + m
    | none =>
      match findFirst matchDivChapterAt tail with
      | some m => s + 100 + m
      | none => content.length

/-- The next-chapter boundary of _extract_by_filepos: when a next href is
supplied, has a fragment, names the same resource, and its fragment starts
with filepos, the match start of that fragment in the same document.
Returns none (leaving end_pos at the document length) otherwise. -/
def fileposNextEnd (content original_href : List Char) :
    Option (List Char) → Option Nat
  | none => none
  | some nh =>
    if nh.contains '#' then
      let next_file := hrefFile nh
      let next_anchor := hrefFrag nh
      let current_file :=
        if original_href.contains '#' then hrefFile original_href else original_href
      if next_file = current_file ∧ startsWithChars (str "filepos") next_anchor then
        findAnchorPos content next_anchor
      else none
    else none

/-- Model of _extract_by_filepos: locate the filepos anchor marker; on a miss fall
back to smart splitting; otherwise slice from the match start to the
next-chapter boundary if available, else to the heuristic end; strip the
slice and return the whole document if the stripped slice is empty. -/
def extract_by_filepos (content anchor original_href : List Char)
    (next_href : Option (List Char)) : List Char :=
  match findAnchorPos content anchor with
  | none => smart_split_content content original_href
  | some s =>
    let end0 : Nat :=
      match fileposNextEnd content original_href next_href with
      | some e => e
      | none => content.length
    let end1 : Nat := if end0 = content.length then heuristicEnd content s else end0
    let extracted := trimWS (sliceList content s end1)
    if extracted = [] then content else extracted

/-- Model of _extract_by_id_anchor: find the tag carrying the id; slice from its
match start to the next heading open tag after the match end (or to the
document end), stripped; return the whole document when the id is not
found. -/
def extract_by_id_anchor (content anchor : List Char) : List Char :=
  match findFirst (matchAttrTagAt (str "id=") (anchor.map Char.toLower)) content with
  | none => content
  | some s =>
    let mlen := matchIdTagLen content s
    match findFirst matchHeadingOpenCSAt (content.drop (s + mlen)) with
    | some k => trimWS (sliceList content s (s + mlen + k))
    | none => trimWS (content.drop s)

/-- Model of _extract_content_by_anchor: dispatch on the anchor form. -/
def extract_content_by_anchor (content anchor original_href : List Char)
    (next_href : Option (List Char)) : List Char :=
  if startsWithChars (str "filepos") anchor then
    extract_by_filepos content anchor original_href next_href
  else
    extract_by_id_anchor content anchor

/-- Model of _get_item_content: split the href, look the resource up by name among
document items, decode (a decode failure raises, modelled as error), treat
an empty document as missing, return the whole text when there is no
(non-empty) anchor, and otherwise extract by anchor. -/
def get_item_content (bk : Book) (href : List Char)
    (next_href : Option (List Char)) : Except Unit (Option (List Char)) :=
  let file_name := if href.contains '#' then hrefFile href else href
  let anchor : List Char := if href.contains '#' then hrefFrag href else []
  match findDocByName bk file_name with
  | none => Except.ok none
  | some it =>
    match it.contentUtf8 with
    | none => Except.error ()
    | some full =>
      if full = [] then Except.ok none
      else if anchor = [] then Except.ok (some full)
      else Except.ok (some (extract_content_by_anchor full anchor href next_href))

/-! ### v1 chapter assembly (epub_exporter.py) -/

mutual

/-- The collect_items traversal of _extract_from_toc on one node: a Link
contributes itself; a (Section, children) tuple contributes the section and
then its children, depth-first. -/
def collectItems : TocNode → List (List Char × List Char)
  | TocNode.link t h => [(t, h)]
  | TocNode.sect t h cs => (t, h) :: collectItemsList cs

/-- The collect_items traversal over a node list, in list order. -/
def collectItemsList : List TocNode → List (List Char × List Char)
  | [] => []
  | n :: rest => collectItems n ++ collectItemsList rest

end

/-- The next-entry href passed along by _extract_from_toc: the href of the
head of the remaining entry list, if any. -/
def nextHrefOf : List (List Char × List Char) → Option (List Char)
  | (_, h2) :: _ => some h2
  | [] => none

/-- The per-entry loop of _extract_from_toc, threading the next entry href
and the accumulated chapters (a decode failure inside _get_item_content is
not caught here and aborts the traversal). -/
def extract_from_toc_go (bk : Book) :
    List (List Char × List Char) → List Chapter → Except Unit (List Chapter)
  | [], acc => Except.ok acc
  | (title, href) :: rest, acc =>
    match get_item_content bk href (nextHrefOf rest) with
    | Except.error e => Except.error e
    | Except.ok none => extract_from_toc_go bk rest acc
    | Except.ok (some content) =>
      if content = [] then extract_from_toc_go bk rest acc
      else
        let t := if title = [] then chapterDefaultEn (acc.length + 1) else title
        extract_from_toc_go bk rest (acc ++ [⟨t, content, href⟩])

/-- Model of _extract_from_toc of v1. -/
def extract_from_toc (bk : Book) : Except Unit (List Chapter) :=
  extract_from_toc_go bk (collectItemsList bk.toc) []

/-- Model of _extract_title_from_content of v1: first full heading element of levels
one to six, else the title element; the group with tags stripped and
whitespace trimmed, when non-empty.  (v1 performs no entity decoding
here.) -/
def extract_title_from_content (content : List Char) : Option (List Char) :=
  match findFirstMatch (matchHElemAt 6 false) content with
  | some (_, _, _, g) =>
    let t := trimWS (stripTags g)
    if t = [] then
      match findFirstMatch matchTitleElemAt content with
      | some (_, _, _, g2) =>
        let t2 := trimWS (stripTags g2)
        if t2 = [] then none else some t2
      | none => none
    else some t
  | none =>
    match findFirstMatch matchTitleElemAt content with
    | some (_, _, _, g2) =>
      let t2 := trimWS (stripTags g2)
      if t2 = [] then none else some t2
    | none => none

/-- The per-entry loop of _extract_from_spine of v1: every spine pair is
visited (the linear flag is read but ignored); the item is looked up by id;
document items whose decoded text is non-blank are emitted with a
content-derived or positional default title; a decode failure is caught and
skipped. -/
def extract_from_spine_go (bk : Book) :
    List (List Char × Bool) → List Chapter → List Chapter
  | [], acc => acc
  | (iid, _linear) :: rest, acc =>
    match findItemById bk iid with
    | some it =>
      if it.itype = ItemType.document then
        match it.contentUtf8 with
        | some content =>
          if trimWS content = [] then extract_from_spine_go bk rest acc
          else
            let title :=
              match extract_title_from_content content with
              | some t => if t = [] then chapterDefaultEn (acc.length + 1) else t
              | none => chapterDefaultEn (acc.length + 1)
            extract_from_spine_go bk rest (acc ++ [⟨title, content, iid⟩])
        | none => extract_from_spine_go bk rest acc
      else extract_from_spine_go bk rest acc
    | none => extract_from_spine_go bk rest acc

/-- Model of _extract_from_spine of v1. -/
def extract_from_spine (bk : Book) : List Chapter :=
  extract_from_spine_go bk bk.spine []

/-! ### v1 degenerate-content re-splitter (epub_exporter.py) -/

/-- The next chapter boundary of _split_by_html_headings: the start of the
next heading match, or the document end after the last heading. -/
def nextStartOf (content : List Char) : List (Nat × Nat × Char × List Char) → Nat
  | (s2, _, _, _) :: _ => s2
  | [] => content.length

/-- The chapter-building loop of _split_by_html_headings over the heading
matches (enumerate index i): each chapter runs from a heading match start
to the next match start (the last to the document end); the title is the
heading body with tags stripped, entities decoded and whitespace trimmed,
with a positional default when empty; blank chapters are dropped. -/
def buildHtmlChapters (content : List Char) :
    List (Nat × Nat × Char × List Char) → Nat → List Chapter
  | [], _ => []
  | (s, _, _, t) :: rest, i =>
    let endPos : Nat := nextStartOf content rest
    let t0 := trimWS (htmlUnescape (stripTags t))
    let title := if t0 = [] then chapterDefaultEn (i + 1) else t0
    let cc := trimWS (sliceList content s endPos)
    (if cc = [] then [] else [⟨title, cc, chapterTag (i + 1)⟩])
      ++ buildHtmlChapters content rest (i + 1)

/-- Model of _split_by_html_headings: all matches of <h([1-3])[^>]*>(.*?)</h\1> ;
an empty result unless more than one chapter survives. -/
def split_by_html_headings (content : List Char) : List Chapter :=
  let headings := finditer (matchHElemAt 3 true) content
  if headings.length < 2 then []
  else
    let chapters := buildHtmlChapters content headings 0
    if 1 < chapters.length then chapters else []

/-- Markdown heading line pattern of the text splitter: one or more #
characters, whitespace, then the captured rest of the line. -/
def matchMdHeading (line : List Char) : Option (List Char) :=
  let hashes := line.takeWhile (fun c => c == '#')
  if hashes = [] then none
  else
    let rest := line.dropWhile (fun c => c == '#')
    let ws := rest.takeWhile isWS
    if ws = [] then none
    else
      let rest2 := rest.dropWhile isWS
      if rest2 = [] then none else some rest2

/-- Chapter-number heading line pattern (case-insensitive): the word
Chapter, whitespace, digits, an optional run of colons and whitespace, then
the captured (possibly empty) rest of the line. -/
def matchChapterLine (line : List Char) : Option (List Char) :=
  match dropCIPre (str "chapter") line with
  | none => none
  | some r1 =>
    if r1.takeWhile isWS = [] then none
    else
      let r2 := r1.dropWhile isWS
      if r2.takeWhile Char.isDigit = [] then none
      else
        let r3 := r2.dropWhile Char.isDigit
        some (r3.dropWhile (fun c => c == ':' || isWS c))

/-- Numbered heading line pattern: digits, a dot, optional whitespace, then
the captured non-empty rest of the line. -/
def matchNumDotLine (line : List Char) : Option (List Char) :=
  let ds := line.takeWhile Char.isDigit
  if ds = [] then none
  else
    match line.dropWhile Char.isDigit with
    | '.' :: r1 =>
      let r2 := r1.dropWhile isWS
      if r2 = [] then none else some r2
    | _ => none

/-- The ordered heading-pattern list of _split_content_by_headings, applied
with re.match to a line: full h1-h3 element, markdown heading, chapter
heading, numbered heading; returns group 1 of the first pattern that
matches. -/
def textPatternTitle (line : List Char) : Option (List Char) :=
  match matchHElemAt 3 false line with
  | some (_, _, g) => some g
  | none =>
    match matchMdHeading line with
    | some g => some g
    | none =>
      match matchChapterLine line with
      | some g => some g
      | none => matchNumDotLine line

/-- State of the line loop of _split_by_text_patterns: emitted chapters,
the lines of the chapter being accumulated, and the pending title (none
initially; possibly the empty capture). -/
structure TextState where
  chapters : List Chapter
  cur : List (List Char)
  curTitle : Option (List Char)

/-- The current-title-or-default expression of the text splitter (Python
or-falsiness: a missing or empty title yields the positional default). -/
def textTitleOr : Option (List Char) → Nat → List Char
  | some t, n => if t = [] then chapterDefaultEn n else t
  | none, n => chapterDefaultEn n

/-- Save the accumulated chapter when its joined, trimmed content is
non-empty. -/
def textFlush (st : TextState) : List Chapter :=
  let cc := trimWS (joinNL st.cur)
  if cc = [] then st.chapters
  else
    st.chapters
      ++ [⟨textTitleOr st.curTitle (st.chapters.length + 1), cc,
           chapterTag (st.chapters.length + 1)⟩]

/-- One stripped, non-empty line of _split_by_text_patterns: a heading line
with a non-empty accumulator saves the previous chapter and starts a new
one; any other line (including a heading line seen with an empty
accumulator, which does not set the title) is appended. -/
def textStep (st : TextState) (line : List Char) : TextState :=
  match textPatternTitle line with
  | some g =>
    if st.cur = [] then { st with cur := st.cur ++ [line] }
    else { chapters := textFlush st, cur := [line], curTitle := some (trimWS g) }
  | none => { st with cur := st.cur ++ [line] }

/-- One raw line of the loop of _split_by_text_patterns: strip it, skip it
when blank, and otherwise feed it to the heading-or-accumulate step. -/
def textLineStep (st : TextState) (line : List Char) : TextState :=
  let l := trimWS line
  if l = [] then st else textStep st l

/-- The chapter list accumulated by _split_by_text_patterns before its
final size check: strip tags to newlines, collapse newline runs, trim, run
the line loop, and save the trailing chapter if any lines remain. -/
def textChaptersOf (content : List Char) : List Chapter :=
  let text := trimWS (collapseNewlines (tagToNewline content))
  let lines := splitLines text
  let st := lines.foldl textLineStep ⟨[], [], none⟩
  if st.cur = [] then st.chapters else textFlush st

/-- Model of _split_by_text_patterns: an empty result unless more than one chapter
survives. -/
def split_by_text_patterns (content : List Char) : List Chapter :=
  let chapters := textChaptersOf content
  if 1 < chapters.length then chapters else []

/-- Model of _split_content_by_headings: the heading-tag split, else the
text-pattern split, else the single complete-content chapter. -/
def split_content_by_headings (content : List Char) : List Chapter :=
  let html := split_by_html_headings content
  if html = [] then
    let txt := split_by_text_patterns content
    if txt = [] then [⟨str "Complete Content", content, str "full_content"⟩]
    else txt
  else html

/-- True exactly when _split_content_by_headings prints the cannot-split
warning: both strategies returned no chapters. -/
def split_warning (content : List Char) : Bool :=
  (split_by_html_headings content).isEmpty && (split_by_text_patterns content).isEmpty

/-- The identical-content check of get_chapters: more than one chapter and
every content equal to the first content. -/
def degenerateTrigger : List Chapter → Bool
  | [] => false
  | c0 :: tl =>
    decide (1 < (c0 :: tl).length)
      && (c0 :: tl).all (fun c => c.content == c0.content)

/-- The post-processing step of get_chapters: when the identical-content
check fires, replace the list by the content-based split (which is always
non-empty, so the guard on a falsy split result never retains the old
list). -/
def postprocessChapters (cs : List Chapter) : List Chapter :=
  match cs with
  | [] => []
  | c0 :: tl =>
    if degenerateTrigger (c0 :: tl) then
      let sc := split_content_by_headings c0.content
      if sc = [] then c0 :: tl else sc
    else c0 :: tl

/-- get_chapters of v1: navigation assembly when the navigation tree is
non-empty, spine assembly otherwise, then the degenerate-content
post-processing.  A decode failure on the navigation path propagates. -/
def get_chapters (bk : Book) : Except Unit (List Chapter) :=
  match bk.toc with
  | [] => Except.ok (postprocessChapters (extract_from_spine bk))
  | _ :: _ =>
    match extract_from_toc bk with
    | Except.error e => Except.error e
    | Except.ok cs => Except.ok (postprocessChapters cs)

/-- Project the chapter list out of a successful run (empty on the
exceptional path); used to state concrete counterexamples. -/
def okChapters : Except Unit (List Chapter) → List Chapter
  | Except.ok cs => cs
  | Except.error _ => []

/-! ### v2 assembly (epub_exporter_v2.py) -/

/-- Default Chinese chapter title of v2. -/
def zhChapterDefault (n : Nat) : List Char := str "章节 " ++ natToChars n

/-- First document-type item with the given name (the
get_items_of_type(ITEM_DOCUMENT) loop of _process_single_toc_entry). -/
def findDocV2 (bk : Book) (nm : List Char) : Option Item :=
  (bk.items.filter (fun it => it.itype == ItemType.document)).find?
    (fun it => it.name == nm)

/-- The extracted slice of _simple_anchor_processing once a pattern matched
at position s: to the next heading open tag found after s + 100, stripped,
or from s to the document end, stripped. -/
def simpleAnchorSlice (content : List Char) (s : Nat) : List Char :=
  match findFirst matchHeadingOpenAt (content.drop (s + 100)) with
  | some m => trimWS (sliceList content s (s + 100 + m))
  | none => trimWS (content.drop s)

/-- Model of _simple_anchor_processing of v2: try the id-attribute tag pattern, then
the name-attribute tag pattern; none when neither matches. -/
def simple_anchor_processing (content anchor : List Char) : Option (List Char) :=
  let anchorL := anchor.map Char.toLower
  match findFirst (matchAttrTagAt (str "id=") anchorL) content with
  | some s => some (simpleAnchorSlice content s)
  | none =>
    match findFirst (matchAttrTagAt (str "name=") anchorL) content with
    | some s => some (simpleAnchorSlice content s)
    | none => none

/-- State of the v2 traversal: chapters and the processed_files key set
(keys are file names or file#anchor strings). -/
structure V2State where
  chapters : List Chapter
  processed : List (List Char)

/-- The whole-file branches of _process_single_toc_entry (both the
no-anchor case and the anchored fallback case run this same code): emit the
whole document under the file-name key unless that key was already
processed. -/
def v2WholeFile (st : V2State) (title file_name content : List Char) : V2State :=
  if file_name ∈ st.processed then st
  else
    { chapters := st.chapters ++ [⟨title, content, file_name⟩],
      processed := file_name :: st.processed }

/-- The non-empty-anchor branch of _process_single_toc_entry: skip an
already-processed file#anchor key; emit the anchored slice when it resolves
to more than 500 characters; otherwise fall back to the whole file. -/
def v2Anchored (st : V2State) (title' file_name anchor content : List Char) : V2State :=
  let file_key := file_name ++ '#' :: anchor
  if file_key ∈ st.processed then st
  else
    match simple_anchor_processing content anchor with
    | some pc =>
      if 500 < pc.length then
        { chapters := st.chapters ++ [⟨title', pc, file_key⟩],
          processed := file_key :: st.processed }
      else v2WholeFile st title' file_name content
    | none => v2WholeFile st title' file_name content

/-- Model of _process_single_toc_entry of v2: split the href; look the document up
by name; decode (a failure is caught and skips the entry); for a non-empty
anchor, skip an already-processed file#anchor key, emit the anchored slice
when it resolves to more than 500 characters, and otherwise fall back to
the whole file; without an anchor emit the whole file. -/
def processSingleTocEntry (bk : Book) (title href : List Char) (st : V2State) : V2State :=
  let title' := if title = [] then zhChapterDefault (st.chapters.length + 1) else title
  let file_name := if href.contains '#' then hrefFile href else href
  let anchor : List Char := if href.contains '#' then hrefFrag href else []
  match findDocV2 bk file_name with
  | none => st
  | some it =>
    match it.contentUtf8 with
    | none => st
    | some content =>
      if anchor = [] then v2WholeFile st title' file_name content
      else v2Anchored st title' file_name anchor content

mutual

/-- The process_toc_item recursion of _extract_from_toc_standard on one
node: a Link with a truthy href is processed; a Section with a truthy href
is processed and then its children, in order. -/
def processTocItem (bk : Book) : TocNode → V2State → V2State
  | TocNode.link t h, st => if h = [] then st else processSingleTocEntry bk t h st
  | TocNode.sect t h cs, st =>
    let st1 := if h = [] then st else processSingleTocEntry bk t h st
    processTocItemList bk cs st1

/-- The toc loop of _extract_from_toc_standard over a node list. -/
def processTocItemList (bk : Book) : List TocNode → V2State → V2State
  | [], st => st
  | n :: rest, st => processTocItemList bk rest (processTocItem bk n st)

end

/-- Model of _extract_from_toc_standard of v2. -/
def extract_from_toc_standard (bk : Book) : List Chapter :=
  (processTocItemList bk bk.toc ⟨[], []⟩).chapters

/-! ### Specification-side characterizations and invariants -/

/-- Spec-side characterization of one spine entry of the v1 spine pass
(what the spec calls one Chapter per non-empty spine document): the
(identifier, content) pair the entry contributes, independent of the
running chapter count.  Note that the linear flag of the entry is ignored,
as in the v1 source. -/
def spineProjSpec (bk : Book) (e : List Char × Bool) : Option (List Char × List Char) :=
  match findItemById bk e.1 with
  | some it =>
    if it.itype = ItemType.document then
      match it.contentUtf8 with
      | some content => if trimWS content = [] then none else some (e.1, content)
      | none => none
    else none
  | none => none

/-- Invariant of the v2 traversal: emitted chapter identifiers are pairwise
distinct and all recorded in the processed key set. -/
def V2Inv (st : V2State) : Prop :=
  (st.chapters.map Chapter.identifier).Nodup ∧
    ∀ id ∈ st.chapters.map Chapter.identifier, id ∈ st.processed

/-! ### Concrete example inputs for witnesses and counterexamples -/

/-- A document with two filepos markers; the text between them ends in a
space, so the stripped extraction differs from the raw slice. -/
def c1C : List Char :=
  str "<p><a id=\"filepos100\"></a>Hello world </p><a id=\"filepos900\"></a>Tail"

/-- The current positional fragment of the c1 example. -/
def c1A : List Char := str "filepos100"

/-- The current href of the c1 example. -/
def c1H : List Char := str "doc.html#filepos100"

/-- The next-entry href of the c1 example (same resource, positional). -/
def c1N : List Char := str "doc.html#filepos900"

/-- A document carrying one id anchor followed by six hundred characters,
so the v2 anchored slice exceeds the 500-character threshold. -/
def c2Doc : List Char := str "<x id=\"a\">" ++ List.replicate 600 'z'

/-- Archive whose navigation first emits resource f.html in full and then
names a fragment of the same resource. -/
def bk2 : Book :=
  { toc := [TocNode.link (str "T1") (str "f.html"),
            TocNode.link (str "T2") (str "f.html#a")],
    spine := [],
    items := [⟨str "f", str "f.html", ItemType.document, some c2Doc⟩] }

/-- Archive with a non-empty navigation tree that resolves to zero chapters
(the href names a missing resource) but a non-empty linear spine. -/
def bk3 : Book :=
  { toc := [TocNode.link (str "T") (str "missing.html")],
    spine := [(str "a", true)],
    items := [⟨str "a", str "a.html", ItemType.document, some (str "<p>x</p>")⟩] }

/-- Archive with an empty navigation tree and one non-linear spine entry
holding a decodable document. -/
def bkSp : Book :=
  { toc := [],
    spine := [(str "a", false)],
    items := [⟨str "a", str "a.html", ItemType.document, some (str "<p>x</p>")⟩] }

/-- Archive whose single navigation target has undecodable bytes. -/
def bk4 : Book :=
  { toc := [TocNode.link (str "T") (str "f.html")],
    spine := [(str "f", true)],
    items := [⟨str "f", str "f.html", ItemType.document, none⟩] }

/-- Archive whose navigation entries repeat an href with distinct document
contents, so the degenerate-content check does not fire. -/
def bk6 : Book :=
  { toc := [TocNode.link (str "A") (str "f.html"),
            TocNode.link (str "B") (str "g.html"),
            TocNode.link (str "C") (str "f.html")],
    spine := [],
    items := [⟨str "f", str "f.html", ItemType.document, some (str "<p>A</p>")⟩,
              ⟨str "g", str "g.html", ItemType.document, some (str "<p>B</p>")⟩] }

/-- A shared content with exactly three well-formed h2 elements. -/
def c5C : List Char := str "<h2>A</h2>x<h2>B &amp; C</h2>y<h2>D</h2>z"

/-- A shared content with no heading elements and no heading-pattern lines. -/
def c9C : List Char := str "<p>hello world</p>"

/-- A document longer than 10000 characters whose two heading elements are
separated from the rest by a space, exposing the stripped-slice boundary. -/
def c8C : List Char := str "<h1>A</h1> <h2>B</h2>" ++ List.replicate 10000 'z'

/-- A document whose filepos marker matches at offset three and whose only
heading open tag lies beyond the 100-character guard. -/
def c10C : List Char :=
  str "<a id=\"filepos5\"></a>" ++ List.replicate 90 'y'
    ++ str "<h2 class=\"x\">HEAD</h2>"

/-- A document whose only id attribute is intro2 — not equal to the
fragment intro — followed by a heading; the optional closing quote of the
id-tag pattern makes it match the id prefix anyway. -/
def c7C : List Char := str "<p id=\"intro2\">A</p><h1>B</h1>tail"

/-- A degenerate chapter carrying the three-h2 shared content. -/
def c5Chap : Chapter := ⟨str "X", c5C, str "a"⟩

/-- A degenerate chapter carrying the unsplittable shared content. -/
def c9Chap : Chapter := ⟨str "X", c9C, str "a"⟩

/-! ### Scanner lemmas -/

theorem findFirstAux_some (p : List Char → Bool) :
    ∀ (cs : List Char) (i j : Nat), findFirstAux p cs i = some j →
      ∃ k, j = i + k ∧ k ≤ cs.length ∧ p (cs.drop k) = true := by
  intro cs
  induction cs with
  | nil =>
    intro i j h
    simp only [findFirstAux] at h
    by_cases hp : p [] = true
    · rw [if_pos hp] at h
      injection h with h
      exact ⟨0, by omega, by simp, by simpa using hp⟩
    · rw [if_neg hp] at h
      exact absurd h (by simp)
  | cons c rest ih =>
    intro i j h
    simp only [findFirstAux] at h
    by_cases hp : p (c :: rest) = true
    · rw [if_pos hp] at h
      injection h with h
      exact ⟨0, by omega, by simp, by simpa using hp⟩
    · rw [if_neg hp] at h
      obtain ⟨k, hk1, hk2, hk3⟩ := ih (i + 1) j h
      exact ⟨k + 1, by omega, by simpa using hk2, by simpa using hk3⟩

theorem findFirst_some (p : List Char → Bool) (cs : List Char) (j : Nat)
    (h : findFirst p cs = some j) :
    j ≤ cs.length ∧ p (cs.drop j) = true := by
  obtain ⟨k, hk1, hk2, hk3⟩ := findFirstAux_some p cs 0 j h
  subst hk1
  simpa using ⟨hk2, hk3⟩

theorem findFirst_some_lt (p : List Char → Bool) (cs : List Char) (j : Nat)
    (hnil : p [] = false) (h : findFirst p cs = some j) :
    j < cs.length := by
  obtain ⟨hle, hp⟩ := findFirst_some p cs j h
  rcases Nat.lt_or_ge j cs.length with hlt | hge
  · exact hlt
  · exfalso
    have hdrop : cs.drop j = [] := List.drop_eq_nil_of_le (by omega)
    rw [hdrop, hnil] at hp
    exact absurd hp (by simp)

theorem matchAnchorAttrAt_nil (anchorL : List Char) :
    matchAnchorAttrAt anchorL [] = false := rfl

theorem matchHeadingOpenAt_nil : matchHeadingOpenAt [] = false := rfl

theorem matchFileposIdAt_nil : matchFileposIdAt [] = false := rfl

theorem matchDivChapterAt_nil : matchDivChapterAt [] = false := rfl

theorem matchAttrTagAt_nil (attrL anchorL : List Char) :
    matchAttrTagAt attrL anchorL [] = false := rfl

theorem findAnchorPos_lt (content anchor : List Char) (j : Nat)
    (h : findAnchorPos content anchor = some j) : j < content.length :=
  findFirst_some_lt _ content j (matchAnchorAttrAt_nil _) h

/-! ### Trim and slice lemmas -/

theorem trimWS_cons_ne_nil (c : Char) (l : List Char) (hc : isWS c = false) :
    trimWS (c :: l) ≠ [] := by
  intro hcontra
  unfold trimWS at hcontra
  rw [List.dropWhile_cons, hc] at hcontra
  simp only [Bool.false_eq_true, if_false] at hcontra
  have h1 : (((c :: l).reverse).dropWhile isWS) = [] := by
    have := congrArg List.reverse hcontra
    simpa using this
  have h2 : ∀ x ∈ (c :: l).reverse, isWS x = true := by
    rw [← List.dropWhile_eq_nil_iff]
    exact h1
  have h3 : isWS c = true := h2 c (by simp)
  rw [hc] at h3
  exact absurd h3 (by simp)

theorem sliceList_head_lt (content : List Char) (s e : Nat) (c : Char) (t : List Char)
    (hd : content.drop s = c :: t) (he : s < e) :
    sliceList content s e = c :: t.take (e - s - 1) := by
  unfold sliceList
  rw [hd]
  have : e - s = (e - s - 1) + 1 := by omega
  rw [this]
  rfl

theorem trim_slice_ne_nil (content : List Char) (s e : Nat) (t : List Char)
    (hd : content.drop s = '<' :: t) (he : s < e) :
    trimWS (sliceList content s e) ≠ [] := by
  rw [sliceList_head_lt content s e '<' t hd he]
  exact trimWS_cons_ne_nil '<' _ (by decide)

theorem drop_ne_nil_lt (content : List Char) (s : Nat) (c : Char) (t : List Char)
    (hd : content.drop s = c :: t) : s < content.length := by
  by_contra hge
  have : content.drop s = [] := List.drop_eq_nil_of_le (by omega)
  rw [this] at hd
  exact absurd hd (by simp)

/-! ### Nodup helper -/

theorem nodup_concat_of_not_mem {α : Type} {l : List α} {a : α}
    (ha : a ∉ l) (hl : l.Nodup) : (l ++ [a]).Nodup := by
  induction l with
  | nil => simp
  | cons b t ih =>
    rw [List.nodup_cons] at hl
    have hbt : b ∉ t := hl.1
    have hba : b ≠ a := fun hcontra => ha (by simp [hcontra])
    have hat : a ∉ t := fun hcontra => ha (by simp [hcontra])
    rw [List.cons_append, List.nodup_cons]
    constructor
    · intro hmem
      rcases List.mem_append.mp hmem with hm | hm
      · exact hbt hm
      · exact hba (by simpa using hm)
    · exact ih hat hl.2

/-! ### Heading-element matcher and finditer soundness -/

theorem matchHElemAt_some (maxL : Nat) (br : Bool) (cs : List Char) (l : Nat)
    (d : Char) (g : List Char) (h : matchHElemAt maxL br cs = some (l, d, g)) :
    (∃ t, cs = '<' :: t) ∧ 1 ≤ l := by
  match cs with
  | [] => simp [matchHElemAt] at h
  | [c0] => simp [matchHElemAt] at h
  | [c0, c1] => simp [matchHElemAt] at h
  | c0 :: c1 :: c2 :: rest =>
    by_cases hc : (c0 == '<' && c1.toLower == 'h' && isLevelDigit maxL c2) = true
    · have hc0 : c0 = '<' := by
        simp only [Bool.and_eq_true, beq_iff_eq] at hc
        exact hc.1.1
      refine ⟨⟨c1 :: c2 :: rest, by rw [hc0]⟩, ?_⟩
      cases hfi : findCharIdx '>' rest with
      | none => simp [matchHElemAt, hc, hfi] at h
      | some p =>
        cases hff : findFirst (matchCloseHAt maxL br c2) (rest.drop (p + 1)) with
        | none => simp [matchHElemAt, hc, hfi, hff] at h
        | some j =>
          simp only [matchHElemAt, hc, hfi, hff, if_true] at h
          obtain ⟨h1, -⟩ := Prod.mk.injEq .. ▸ Option.some.inj h
          omega
    · simp [matchHElemAt, hc] at h

theorem finditerAux_sound (m : List Char → Option (Nat × Char × List Char))
    (content : List Char) :
    ∀ (fuel i : Nat),
      (∀ e ∈ finditerAux m fuel (content.drop i) i,
        i ≤ e.1 ∧ m (content.drop e.1) = some e.2)
      ∧ List.Chain' (fun a b => a.1 + a.2.1 ≤ b.1)
          (finditerAux m fuel (content.drop i) i) := by
  intro fuel
  induction fuel with
  | zero => intro i; simp [finditerAux]
  | succ fuel ih =>
    intro i
    cases hcs : content.drop i with
    | nil => simp [finditerAux]
    | cons c rest =>
      cases hm2 : m (c :: rest) with
      | none =>
        have hrest : rest = content.drop (i + 1) := by
          have h1 : (content.drop i).drop 1 = content.drop (i + 1) := List.drop_drop 1 i content
          rw [hcs] at h1
          simpa using h1
        simp only [finditerAux, hm2]
        rw [hrest]
        obtain ⟨ihmem, ihchain⟩ := ih (i + 1)
        exact ⟨fun e he => ⟨by have := (ihmem e he).1; omega, (ihmem e he).2⟩, ihchain⟩
      | some r =>
        obtain ⟨len, d, g⟩ := r
        have hdrop : (c :: rest).drop len = content.drop (i + len) := by
          rw [← hcs]
          exact List.drop_drop len i content
        simp only [finditerAux, hm2]
        rw [hdrop]
        obtain ⟨ihmem, ihchain⟩ := ih (i + len)
        constructor
        · intro e he
          rcases List.mem_cons.mp he with he1 | he2
          · subst he1
            exact ⟨Nat.le_refl i, by rw [hcs]; exact hm2⟩
          · obtain ⟨h1, h2⟩ := ihmem e he2
            exact ⟨by omega, h2⟩
        · rw [List.chain'_cons']
          constructor
          · intro y hy
            have hmem := List.mem_of_mem_head? hy
            have := (ihmem y hmem).1
            simpa using this
          · exact ihchain

theorem finditer_sound (m : List Char → Option (Nat × Char × List Char))
    (cs : List Char) :
    (∀ e ∈ finditer m cs, m (cs.drop e.1) = some e.2)
    ∧ List.Chain' (fun a b => a.1 + a.2.1 ≤ b.1) (finditer m cs) := by
  have h := finditerAux_sound m cs (cs.length + 1) 0
  rw [List.drop_zero] at h
  exact ⟨fun e he => (h.1 e he).2, h.2⟩

/-! ### Claim C7 -/

/-- C7 (amended): for every document text and non-positional (identifier)
fragment, if the id-tag pattern (whose optional closing quote lets it
match tags whose id merely extends the fragment, and which matches the
value case-insensitively) finds no match in the document, resolve returns
the full document text unmodified.  The original claim, conditioned on no
tag carrying an id equal to the fragment, is refuted by
c7_counterexample. -/
theorem c7_id_miss_returns_full (content anchor original_href : List Char)
    (next_href : Option (List Char))
    (hpos : startsWithChars (str "filepos") anchor = false)
    (hmiss : findFirst (matchAttrTagAt (str "id=") (anchor.map Char.toLower)) content
      = none) :
    extract_content_by_anchor content anchor original_href next_href = content := by
  simp only [extract_content_by_anchor, hpos, Bool.false_eq_true, if_false]
  simp only [extract_by_id_anchor, hmiss]

/-- Witness for C7 at a concrete document and fragment. -/
theorem c7_witness :
    extract_content_by_anchor (str "<p>x</p>") (str "intro")
      (str "d.html#intro") none = str "<p>x</p>" :=
  c7_id_miss_returns_full (str "<p>x</p>") (str "intro") (str "d.html#intro") none
    (by decide) (by decide)

/-- C7 counterexample: in the c7 document the only id attribute value is
intro2, so no tag carries an id equal to the fragment intro; yet resolving
the identifier fragment intro does not return the full document text: the
optional closing quote of the pattern <[^>]+id=["quote]?intro["quote]?[^>]*>
matches the extending id, and the chapter is truncated to the stripped
slice from that tag up to the next heading. -/
theorem c7_counterexample :
    extract_content_by_anchor c7C (str "intro") (str "doc.html#intro") none
        = str "<p id=\"intro2\">A</p>"
    ∧ extract_content_by_anchor c7C (str "intro") (str "doc.html#intro") none
        ≠ c7C := by decide

/-! ### Claim C1 -/

/-- C1 counterexample: at a concrete document holding markers for
filepos100 (match start 6) and filepos900 (match start 45), with the next
href naming the same resource and the positional fragment filepos900,
resolution does not return exactly the slice between the two match starts
(the code strips the trailing whitespace of that slice). -/
theorem c1_counterexample :
    extract_content_by_anchor c1C c1A c1H (some c1N) ≠
        sliceList c1C ((findAnchorPos c1C c1A).getD 0)
          ((findAnchorPos c1C (hrefFrag c1N)).getD 0)
      ∧ findAnchorPos c1C c1A = some 6
      ∧ findAnchorPos c1C (hrefFrag c1N) = some 45 := by decide

/-- C1 (amended): when the current positional fragment matches at s and the
supplied next href carries a fragment, names the same resource, its
fragment is positional and matches at e, resolution returns the slice from
s up to (exclusive) e trimmed of surrounding whitespace, falling back to
the whole document only if that trimmed slice is empty; no heuristic
boundary is consulted. -/
theorem c1_amended (content anchor original_href nh : List Char) (s e : Nat)
    (hfp : startsWithChars (str "filepos") anchor = true)
    (hs : findAnchorPos content anchor = some s)
    (hhash : nh.contains '#' = true)
    (hsame : hrefFile nh =
      (if original_href.contains '#' then hrefFile original_href else original_href))
    (hnfp : startsWithChars (str "filepos") (hrefFrag nh) = true)
    (he : findAnchorPos content (hrefFrag nh) = some e) :
    extract_content_by_anchor content anchor original_href (some nh) =
      (if trimWS (sliceList content s e) = [] then content
       else trimWS (sliceList content s e)) := by
  have hnext : fileposNextEnd content original_href (some nh) = some e := by
    simp only [fileposNextEnd, hhash, if_true]
    rw [if_pos ⟨hsame, hnfp⟩]
    exact he
  have hlt : e < content.length := findAnchorPos_lt content (hrefFrag nh) e he
  simp only [extract_content_by_anchor, hfp, if_true]
  simp only [extract_by_filepos, hs, hnext]
  rw [if_neg (Nat.ne_of_lt hlt)]

/-- Witness for the amended C1 at the c1 example (match starts 6 and 45). -/
theorem c1_amended_witness :
    extract_content_by_anchor c1C c1A c1H (some c1N) =
      (if trimWS (sliceList c1C 6 45) = [] then c1C
       else trimWS (sliceList c1C 6 45)) :=
  c1_amended c1C c1A c1H c1N 6 45 (by decide) (by decide) (by decide) (by decide)
    (by decide) (by decide)

/-! ### Claim C10 -/

/-- C10: in positional-fragment resolution with the marker matched at s, no
applicable next-entry boundary, and some heuristic boundary pattern
(heading open tag, filepos id attribute, or chapter-class div) matching in
the text from offset s + 100 on, the heuristic end is placed at or after
s + 100, the extracted slice before trimming is at least 100 characters
long, and the result is that slice trimmed (the whole document if the
trimmed slice is empty) — a boundary-pattern occurrence within the first
100 characters after the anchor never terminates the chapter. -/
theorem c10_heuristic_offset (content anchor original_href : List Char)
    (next_href : Option (List Char)) (s : Nat)
    (hfp : startsWithChars (str "filepos") anchor = true)
    (hs : findAnchorPos content anchor = some s)
    (hno : fileposNextEnd content original_href next_href = none)
    (hpat : (findFirst matchHeadingOpenAt (content.drop (s + 100))).isSome = true
        ∨ (findFirst matchFileposIdAt (content.drop (s + 100))).isSome = true
        ∨ (findFirst matchDivChapterAt (content.drop (s + 100))).isSome = true) :
    s + 100 ≤ heuristicEnd content s
    ∧ 100 ≤ (sliceList content s (heuristicEnd content s)).length
    ∧ extract_content_by_anchor content anchor original_href next_href =
        (if trimWS (sliceList content s (heuristicEnd content s)) = [] then content
         else trimWS (sliceList content s (heuristicEnd content s))) := by
  have key : s + 100 ≤ heuristicEnd content s
      ∧ heuristicEnd content s ≤ content.length := by
    simp only [heuristicEnd]
    cases h1 : findFirst matchHeadingOpenAt (content.drop (s + 100)) with
    | some m =>
      have hm := findFirst_some_lt _ _ m matchHeadingOpenAt_nil h1
      rw [List.length_drop] at hm
      simp only []
      omega
    | none =>
      cases h2 : findFirst matchFileposIdAt (content.drop (s + 100)) with
      | some m =>
        have hm := findFirst_some_lt _ _ m matchFileposIdAt_nil h2
        rw [List.length_drop] at hm
        simp only []
        omega
      | none =>
        cases h3 : findFirst matchDivChapterAt (content.drop (s + 100)) with
        | some m =>
          have hm := findFirst_some_lt _ _ m matchDivChapterAt_nil h3
          rw [List.length_drop] at hm
          simp only []
          omega
        | none =>
          exfalso
          rcases hpat with hp | hp | hp
          · rw [h1] at hp; exact absurd hp (by simp)
          · rw [h2] at hp; exact absurd hp (by simp)
          · rw [h3] at hp; exact absurd hp (by simp)
  refine ⟨key.1, ?_, ?_⟩
  · have hslen : (sliceList content s (heuristicEnd content s)).length =
        min (heuristicEnd content s - s) (content.length - s) := by
      simp [sliceList, List.length_take, List.length_drop]
    rw [hslen]
    omega
  · simp only [extract_content_by_anchor, hfp, if_true]
    simp only [extract_by_filepos, hs, hno]
    simp

/-- Witness for C10 at the c10 example (marker at offset 3, heading found
beyond the guard, heuristic end 111). -/
theorem c10_witness :
    3 + 100 ≤ heuristicEnd c10C 3
    ∧ 100 ≤ (sliceList c10C 3 (heuristicEnd c10C 3)).length
    ∧ extract_content_by_anchor c10C (str "filepos5") (str "d.html#filepos5") none =
        (if trimWS (sliceList c10C 3 (heuristicEnd c10C 3)) = [] then c10C
         else trimWS (sliceList c10C 3 (heuristicEnd c10C 3))) :=
  c10_heuristic_offset c10C (str "filepos5") (str "d.html#filepos5") none 3
    (by decide) (by decide) (by decide) (Or.inl (by decide))

/-! ### Claim C8 -/

theorem matchHElemAt_z_cons (maxL : Nat) (br : Bool) (l : List Char) :
    matchHElemAt maxL br ('z' :: l) = none := by
  match l with
  | [] => rfl
  | [a] => rfl
  | a :: b :: t => simp [matchHElemAt]

theorem finditerAux_replicate_z (maxL : Nat) (br : Bool) :
    ∀ (n fuel i : Nat),
      finditerAux (matchHElemAt maxL br) fuel (List.replicate n 'z') i = [] := by
  intro n
  induction n with
  | zero => intro fuel i; cases fuel <;> simp [finditerAux]
  | succ n ih =>
    intro fuel i
    cases fuel with
    | zero => simp [finditerAux]
    | succ fuel =>
      rw [List.replicate_succ]
      simp only [finditerAux, matchHElemAt_z_cons]
      exact ih fuel (i + 1)

theorem c8_length : c8C.length = 10021 := by
  show (str "<h1>A</h1> <h2>B</h2>" ++ List.replicate 10000 'z').length = 10021
  rw [List.length_append, List.length_replicate]
  rfl

theorem c8_scan (fuel : Nat) :
    finditerAux (matchHElemAt 4 false) (fuel + 3) c8C 0 =
      (0, 10, '1', str "A") :: (11, 10, '2', str "B")
        :: finditerAux (matchHElemAt 4 false) fuel (List.replicate 10000 'z') 21 := rfl

theorem c8_finditer :
    finditer (matchHElemAt 4 false) c8C
      = [(0, 10, '1', str "A"), (11, 10, '2', str "B")] := by
  unfold finditer
  rw [c8_length]
  have h := c8_scan 10019
  rw [show (10021 : Nat) + 1 = 10019 + 3 by rfl, h,
    finditerAux_replicate_z 4 false 10000 10019 21]

/-- C8 counterexample: at a concrete document of 10021 characters whose
heading-element pattern has exactly two matches, starting at offsets 0 and
11, the heuristic fallback does not return the slice between the two
heading starts: it strips the trailing whitespace of that slice. -/
theorem c8_counterexample :
    smart_split_content c8C [] ≠ sliceList c8C 0 11
    ∧ 10000 < c8C.length
    ∧ (finditer (matchHElemAt 4 false) c8C).map (fun e => e.1) = [0, 11] := by
  have hlen := c8_length
  have hfind := c8_finditer
  refine ⟨?_, by rw [hlen]; omega, by rw [hfind]; rfl⟩
  have hs : smart_split_content c8C [] = trimWS (sliceList c8C 0 11) := by
    simp only [smart_split_content, hfind]
    rw [if_pos (by rw [hlen]; omega), if_pos (by simp)]
  rw [hs]
  intro hcontra
  have h1 : trimWS (sliceList c8C 0 11) = str "<h1>A</h1>" := by
    have hsl : sliceList c8C 0 11 = str "<h1>A</h1> " := rfl
    rw [hsl]; rfl
  have h2 : sliceList c8C 0 11 = str "<h1>A</h1> " := rfl
  rw [h1, h2] at hcontra
  exact absurd hcontra (by decide)

/-- C8 (amended): when the document exceeds 10000 characters and the full
heading-element pattern of levels 1-4 (open tag plus lazily matched body
plus close tag of any level 1-4) has two or more non-overlapping matches,
the fallback returns the slice from the first match start to the second
match start trimmed of surrounding whitespace; when the document is at most
10000 characters long, or the pattern has fewer than two matches, it
returns the full document text. -/
theorem c8_amended (content href : List Char) :
    (∀ (s1 l1 : Nat) (d1 : Char) (g1 : List Char) (s2 l2 : Nat) (d2 : Char)
       (g2 : List Char) (rest : List (Nat × Nat × Char × List Char)),
       10000 < content.length →
       finditer (matchHElemAt 4 false) content
         = (s1, l1, d1, g1) :: (s2, l2, d2, g2) :: rest →
       smart_split_content content href = trimWS (sliceList content s1 s2))
    ∧ (content.length ≤ 10000 → smart_split_content content href = content)
    ∧ ((finditer (matchHElemAt 4 false) content).length < 2 →
        smart_split_content content href = content) := by
  refine ⟨?_, ?_, ?_⟩
  · intro s1 l1 d1 g1 s2 l2 d2 g2 rest hlen hfind
    simp only [smart_split_content, hfind]
    rw [if_pos hlen, if_pos (by simp)]
  · intro hle
    simp only [smart_split_content]
    rw [if_neg (by omega)]
  · intro hlt
    simp only [smart_split_content]
    by_cases hlen : 10000 < content.length
    · rw [if_pos hlen, if_neg (by omega)]
    · rw [if_neg hlen]

/-- Witness for the amended C8: its first branch at the c8 document (match
starts 0 and 11), and its length branch at a short document. -/
theorem c8_amended_witness :
    smart_split_content c8C [] = trimWS (sliceList c8C 0 11)
    ∧ smart_split_content (str "<p>x</p>") [] = str "<p>x</p>" :=
  ⟨(c8_amended c8C []).1 0 10 '1' (str "A") 11 10 '2' (str "B") []
      (by rw [c8_length]; omega) c8_finditer,
   (c8_amended (str "<p>x</p>") []).2.1 (by decide)⟩

/-! ### Claim C4 -/

theorem v2_decode_skip (bk : Book) (t href : List Char) (st : V2State) (it : Item)
    (hdoc : findDocV2 bk (if href.contains '#' then hrefFile href else href) = some it)
    (hutf : it.contentUtf8 = none) :
    processSingleTocEntry bk t href st = st := by
  simp only [processSingleTocEntry, hdoc, hutf]

/-- C4 counterexample: at a concrete archive whose single navigation target
has undecodable bytes, the v1 assembly run aborts with an exception instead
of skipping the entry. -/
theorem c4_counterexample : get_chapters bk4 = Except.error () := rfl

/-- C4 (amended): in the v2 assembler, a navigation entry whose target
resource fails to decode is skipped (the state is unchanged) and the
remaining entries are still processed; the v1 spine pass likewise catches
the decode failure and continues with the rest of the spine.  In the v1
navigation path, however, a decode failure propagates as an exception and
aborts the assembly run. -/
theorem c4_amended :
    (∀ (bk : Book) (t href : List Char) (st : V2State) (it : Item),
       findDocV2 bk (if href.contains '#' then hrefFile href else href) = some it →
       it.contentUtf8 = none →
       processSingleTocEntry bk t href st = st)
    ∧ (∀ (bk : Book) (t href : List Char) (rest : List TocNode) (st : V2State) (it : Item),
       findDocV2 bk (if href.contains '#' then hrefFile href else href) = some it →
       it.contentUtf8 = none →
       processTocItemList bk (TocNode.link t href :: rest) st
         = processTocItemList bk rest st)
    ∧ (∀ (bk : Book) (iid : List Char) (lin : Bool) (rest : List (List Char × Bool))
        (acc : List Chapter) (it : Item),
       findItemById bk iid = some it → it.itype = ItemType.document →
       it.contentUtf8 = none →
       extract_from_spine_go bk ((iid, lin) :: rest) acc
         = extract_from_spine_go bk rest acc) := by
  refine ⟨v2_decode_skip, ?_, ?_⟩
  · intro bk t href rest st it hdoc hutf
    simp only [processTocItemList, processTocItem]
    by_cases hh : href = []
    · rw [if_pos hh]
    · rw [if_neg hh, v2_decode_skip bk t href st it hdoc hutf]
  · intro bk iid lin rest acc it hitem htype hutf
    simp only [extract_from_spine_go, hitem, htype, hutf]
    simp

/-- Witness for the amended C4 at concrete inputs built over bk4. -/
theorem c4_amended_witness :
    processSingleTocEntry bk4 (str "T") (str "f.html") ⟨[], []⟩ = ⟨[], []⟩
    ∧ extract_from_spine_go bk4 [(str "f", true)] [] = [] :=
  ⟨(c4_amended).1 bk4 (str "T") (str "f.html") ⟨[], []⟩
      ⟨str "f", str "f.html", ItemType.document, none⟩ (by decide) rfl,
   (c4_amended).2.2 bk4 (str "f") true [] []
      ⟨str "f", str "f.html", ItemType.document, none⟩ (by decide) rfl rfl⟩

/-! ### Claim C3 -/

theorem spine_go_proj (bk : Book) :
    ∀ (l : List (List Char × Bool)) (acc : List Chapter),
      (extract_from_spine_go bk l acc).map (fun c => (c.identifier, c.content)) =
        acc.map (fun c => (c.identifier, c.content)) ++ l.filterMap (spineProjSpec bk) := by
  intro l
  induction l with
  | nil => intro acc; simp [extract_from_spine_go]
  | cons e rest ih =>
    intro acc
    obtain ⟨iid, lin⟩ := e
    cases hit : findItemById bk iid with
    | none =>
      simp only [extract_from_spine_go, hit]
      rw [ih]
      simp [spineProjSpec, hit]
    | some it =>
      by_cases htype : it.itype = ItemType.document
      · cases hc : it.contentUtf8 with
        | none =>
          simp only [extract_from_spine_go, hit, htype, hc, if_true]
          rw [ih]
          simp [spineProjSpec, hit, htype, hc]
        | some content =>
          by_cases hblank : trimWS content = []
          · simp only [extract_from_spine_go, hit, htype, hc, if_true]
            rw [if_pos hblank, ih]
            simp [spineProjSpec, hit, htype, hc, hblank]
          · simp only [extract_from_spine_go, hit, htype, hc, if_true]
            rw [if_neg hblank, ih]
            simp [spineProjSpec, hit, htype, hc, hblank]
      · simp only [extract_from_spine_go, hit]
        rw [if_neg htype, ih]
        simp [spineProjSpec, hit, htype]

/-- C3 counterexample: at a concrete archive whose non-empty navigation
tree yields zero chapters and whose spine holds one linear, non-empty
document, the v1 assembler returns the empty list — it does not fall back
to spine-order assembly (the spine pass itself would have produced one
chapter). -/
theorem c3_counterexample :
    get_chapters bk3 = Except.ok []
    ∧ extract_from_spine bk3
        = [⟨str "Chapter 1", str "<p>x</p>", str "a"⟩] := by
  exact ⟨rfl, by decide⟩

/-- C3 (amended): the v1 assembler falls back to spine-order assembly only
when the navigation tree is empty; the spine pass visits spine entries in
order regardless of their linear flag and contributes exactly the
(identifier, content) pairs of the entries that resolve to a document with
non-blank decoded text; when the navigation tree is non-empty, the result
is always the post-processed navigation assembly, even if it has zero
chapters. -/
theorem c3_amended (bk : Book) :
    (bk.toc = [] →
      get_chapters bk = Except.ok (postprocessChapters (extract_from_spine bk)))
    ∧ ((extract_from_spine bk).map (fun c => (c.identifier, c.content)) =
        bk.spine.filterMap (spineProjSpec bk))
    ∧ (∀ (n : TocNode) (rest : List TocNode), bk.toc = n :: rest →
        get_chapters bk = Except.map postprocessChapters (extract_from_toc bk)) := by
  refine ⟨?_, ?_, ?_⟩
  · intro h
    unfold get_chapters
    rw [h]
  · have h := spine_go_proj bk bk.spine []
    simpa [extract_from_spine] using h
  · intro n rest h
    unfold get_chapters
    rw [h]
    cases hx : extract_from_toc bk with
    | error e => simp [Except.map]
    | ok cs => simp [Except.map]

/-- Witness for the amended C3: the empty-navigation branch at a concrete
spine-only archive, and the non-empty-navigation branch at the bk3
archive. -/
theorem c3_amended_witness :
    get_chapters bkSp = Except.ok (postprocessChapters (extract_from_spine bkSp))
    ∧ get_chapters bk3 = Except.map postprocessChapters (extract_from_toc bk3) :=
  ⟨(c3_amended bkSp).1 rfl,
   (c3_amended bk3).2.2 (TocNode.link (str "T") (str "missing.html")) [] rfl⟩

/-! ### Claims C9 and C5: the degenerate-content re-splitter -/

theorem degenerateTrigger_of (c0 : Chapter) (tl : List Chapter) (htl : tl ≠ [])
    (hall : ∀ ch ∈ c0 :: tl, ch.content = c0.content) :
    degenerateTrigger (c0 :: tl) = true := by
  simp only [degenerateTrigger, Bool.and_eq_true, decide_eq_true_eq, List.all_eq_true,
    beq_iff_eq]
  refine ⟨?_, fun c hc => hall c hc⟩
  have := List.length_pos.mpr htl
  simp only [List.length_cons]
  omega

/-- C9: for every non-empty shared content on which the re-splitter fires,
if both the heading-tag split and the text-pattern split produce no
chapters, the output is exactly one chapter whose content is the original
shared content, titled Complete Content, with the synthetic identifier
full_content, and the cannot-split warning is surfaced. -/
theorem c9_single_chapter_fallback (c0 : Chapter) (tl : List Chapter)
    (htl : tl ≠ [])
    (hall : ∀ ch ∈ c0 :: tl, ch.content = c0.content)
    (_hne : c0.content ≠ [])
    (hhtml : split_by_html_headings c0.content = [])
    (htext : split_by_text_patterns c0.content = []) :
    postprocessChapters (c0 :: tl) =
      [⟨str "Complete Content", c0.content, str "full_content"⟩]
    ∧ split_warning c0.content = true := by
  have htrig := degenerateTrigger_of c0 tl htl hall
  have hsplit : split_content_by_headings c0.content
      = [⟨str "Complete Content", c0.content, str "full_content"⟩] := by
    simp [split_content_by_headings, hhtml, htext]
  constructor
  · simp only [postprocessChapters, htrig, if_true, hsplit]
    simp
  · simp [split_warning, hhtml, htext]

/-- Witness for C9 at two identical chapters holding the c9 content. -/
theorem c9_witness :
    postprocessChapters [c9Chap, c9Chap]
      = [⟨str "Complete Content", c9C, str "full_content"⟩]
    ∧ split_warning c9C = true :=
  c9_single_chapter_fallback c9Chap [c9Chap] (by decide) (by decide) (by decide)
    (by decide) (by decide)

/-- C5: the degenerate-content re-splitter fires exactly when the assembled
list has more than one chapter and every content is byte-for-byte equal to
the first content; and when it fires with a shared content whose
h1-h3-element pattern matches exactly three times, all at level 2, with
non-blank decoded title texts, the result is exactly three chapters, each
titled with its heading text with markup stripped and HTML entities
decoded, spanning heading start to next heading start (the last to the
document end). -/
theorem c5_trigger_and_resplit :
    (∀ cs : List Chapter,
      (degenerateTrigger cs = true ↔
        ∃ c0 tl, cs = c0 :: tl ∧ tl ≠ [] ∧ ∀ ch ∈ cs, ch.content = c0.content))
    ∧ (∀ (c0 : Chapter) (tl : List Chapter)
        (s1 l1 : Nat) (t1 : List Char) (s2 l2 : Nat) (t2 : List Char)
        (s3 l3 : Nat) (t3 : List Char),
        tl ≠ [] →
        (∀ ch ∈ c0 :: tl, ch.content = c0.content) →
        finditer (matchHElemAt 3 true) c0.content =
          [(s1, l1, '2', t1), (s2, l2, '2', t2), (s3, l3, '2', t3)] →
        trimWS (htmlUnescape (stripTags t1)) ≠ [] →
        trimWS (htmlUnescape (stripTags t2)) ≠ [] →
        trimWS (htmlUnescape (stripTags t3)) ≠ [] →
        postprocessChapters (c0 :: tl) =
          [⟨trimWS (htmlUnescape (stripTags t1)),
             trimWS (sliceList c0.content s1 s2), chapterTag 1⟩,
           ⟨trimWS (htmlUnescape (stripTags t2)),
             trimWS (sliceList c0.content s2 s3), chapterTag 2⟩,
           ⟨trimWS (htmlUnescape (stripTags t3)),
             trimWS (sliceList c0.content s3 c0.content.length), chapterTag 3⟩]) := by
  constructor
  · intro cs
    cases cs with
    | nil => simp [degenerateTrigger]
    | cons c0 tl =>
      constructor
      · intro htrig
        simp only [degenerateTrigger, Bool.and_eq_true, decide_eq_true_eq,
          List.all_eq_true, beq_iff_eq] at htrig
        obtain ⟨hlen, hall⟩ := htrig
        refine ⟨c0, tl, rfl, ?_, hall⟩
        intro hcontra
        subst hcontra
        simp at hlen
      · rintro ⟨c0', tl', heq, htl', hall'⟩
        injection heq with h1 h2
        subst h1
        subst h2
        exact degenerateTrigger_of _ _ htl' hall'
  · intro c0 tl s1 l1 t1 s2 l2 t2 s3 l3 t3 htl hall hfind hT1 hT2 hT3
    obtain ⟨hsound, hchain⟩ := finditer_sound (matchHElemAt 3 true) c0.content
    rw [hfind] at hsound hchain
    have hm1 := hsound (s1, l1, '2', t1) (by simp)
    have hm2 := hsound (s2, l2, '2', t2) (by simp)
    have hm3 := hsound (s3, l3, '2', t3) (by simp)
    obtain ⟨⟨u1, hd1⟩, hl1⟩ := matchHElemAt_some 3 true _ l1 '2' t1 hm1
    obtain ⟨⟨u2, hd2⟩, hl2⟩ := matchHElemAt_some 3 true _ l2 '2' t2 hm2
    obtain ⟨⟨u3, hd3⟩, hl3⟩ := matchHElemAt_some 3 true _ l3 '2' t3 hm3
    simp only [List.chain'_cons, List.chain'_singleton, and_true] at hchain
    obtain ⟨hc12, hc23⟩ := hchain
    have hc12' : s1 + l1 ≤ s2 := by simpa using hc12
    have hc23' : s2 + l2 ≤ s3 := by simpa using hc23
    have hs12 : s1 < s2 := by omega
    have hs23 : s2 < s3 := by omega
    have hlen3 : s3 < c0.content.length := drop_ne_nil_lt _ _ '<' u3 hd3
    have hcc1 : trimWS (sliceList c0.content s1 s2) ≠ [] :=
      trim_slice_ne_nil _ _ _ u1 hd1 hs12
    have hcc2 : trimWS (sliceList c0.content s2 s3) ≠ [] :=
      trim_slice_ne_nil _ _ _ u2 hd2 hs23
    have hcc3 : trimWS (sliceList c0.content s3 c0.content.length) ≠ [] :=
      trim_slice_ne_nil _ _ _ u3 hd3 hlen3
    have hbuild : buildHtmlChapters c0.content
        [(s1, l1, '2', t1), (s2, l2, '2', t2), (s3, l3, '2', t3)] 0 =
        [⟨trimWS (htmlUnescape (stripTags t1)),
           trimWS (sliceList c0.content s1 s2), chapterTag 1⟩,
         ⟨trimWS (htmlUnescape (stripTags t2)),
           trimWS (sliceList c0.content s2 s3), chapterTag 2⟩,
         ⟨trimWS (htmlUnescape (stripTags t3)),
           trimWS (sliceList c0.content s3 c0.content.length), chapterTag 3⟩] := by
      simp only [buildHtmlChapters, nextStartOf]
      rw [if_neg hT1, if_neg hT2, if_neg hT3, if_neg hcc1, if_neg hcc2, if_neg hcc3]
      simp
    have hsplit : split_by_html_headings c0.content =
        [⟨trimWS (htmlUnescape (stripTags t1)),
           trimWS (sliceList c0.content s1 s2), chapterTag 1⟩,
         ⟨trimWS (htmlUnescape (stripTags t2)),
           trimWS (sliceList c0.content s2 s3), chapterTag 2⟩,
         ⟨trimWS (htmlUnescape (stripTags t3)),
           trimWS (sliceList c0.content s3 c0.content.length), chapterTag 3⟩] := by
      simp only [split_by_html_headings, hfind]
      rw [if_neg (by simp), hbuild]
      rw [if_pos (by simp)]
    have hscb : split_content_by_headings c0.content =
        [⟨trimWS (htmlUnescape (stripTags t1)),
           trimWS (sliceList c0.content s1 s2), chapterTag 1⟩,
         ⟨trimWS (htmlUnescape (stripTags t2)),
           trimWS (sliceList c0.content s2 s3), chapterTag 2⟩,
         ⟨trimWS (htmlUnescape (stripTags t3)),
           trimWS (sliceList c0.content s3 c0.content.length), chapterTag 3⟩] := by
      simp only [split_content_by_headings, hsplit]
      rw [if_neg (by simp)]
    have htrig := degenerateTrigger_of c0 tl htl hall
    simp only [postprocessChapters, htrig, if_true, hscb]
    simp

set_option maxRecDepth 20000 in
/-- Witness for C5 at two identical chapters holding the three-h2 content
(match starts 0, 11, 30). -/
theorem c5_witness :
    postprocessChapters [c5Chap, c5Chap] =
      [⟨str "A", str "<h2>A</h2>x", str "chapter_1"⟩,
       ⟨str "B & C", str "<h2>B &amp; C</h2>y", str "chapter_2"⟩,
       ⟨str "D", str "<h2>D</h2>z", str "chapter_3"⟩] := by
  have h := c5_trigger_and_resplit.2 c5Chap [c5Chap] 0 10 (str "A") 11 18
    (str "B &amp; C") 30 10 (str "D")
    (by decide) (by decide) (by decide) (by decide) (by decide) (by decide)
  rw [h]
  decide

/-! ### Claim C2: v2 deduplication -/

theorem v2append_inv (st : V2State) (ch : Chapter)
    (hk : ch.identifier ∉ st.processed) (h : V2Inv st) :
    V2Inv ⟨st.chapters ++ [ch], ch.identifier :: st.processed⟩ := by
  obtain ⟨hnd, hsub⟩ := h
  constructor
  · rw [List.map_append]
    exact nodup_concat_of_not_mem (fun hmem => hk (hsub _ hmem)) hnd
  · intro id hid
    rw [List.map_append, List.mem_append] at hid
    rcases hid with hid | hid
    · exact List.mem_cons_of_mem _ (hsub _ hid)
    · simp only [List.map_cons, List.map_nil, List.mem_singleton] at hid
      subst hid
      exact List.mem_cons_self _ _

theorem v2WholeFile_inv (st : V2State) (t f c : List Char) (h : V2Inv st) :
    V2Inv (v2WholeFile st t f c) := by
  unfold v2WholeFile
  by_cases hf : f ∈ st.processed
  · rw [if_pos hf]; exact h
  · rw [if_neg hf]
    exact v2append_inv st ⟨t, c, f⟩ hf h

theorem v2Anchored_inv (st : V2State) (title' file_name anchor content : List Char)
    (h : V2Inv st) : V2Inv (v2Anchored st title' file_name anchor content) := by
  unfold v2Anchored
  by_cases hk : file_name ++ '#' :: anchor ∈ st.processed
  · rw [if_pos hk]; exact h
  · rw [if_neg hk]
    cases simple_anchor_processing content anchor with
    | none => exact v2WholeFile_inv st title' file_name content h
    | some pc =>
      dsimp only
      by_cases hlen : 500 < pc.length
      · rw [if_pos hlen]
        exact v2append_inv st ⟨title', pc, file_name ++ '#' :: anchor⟩ hk h
      · rw [if_neg hlen]
        exact v2WholeFile_inv st title' file_name content h

theorem processSingleTocEntry_inv (bk : Book) (t href : List Char) (st : V2State)
    (h : V2Inv st) : V2Inv (processSingleTocEntry bk t href st) := by
  simp only [processSingleTocEntry]
  cases findDocV2 bk (if href.contains '#' then hrefFile href else href) with
  | none => exact h
  | some it =>
    dsimp only
    cases it.contentUtf8 with
    | none => exact h
    | some content =>
      dsimp only
      by_cases ha : (if href.contains '#' then hrefFrag href else []) = []
      · rw [if_pos ha]
        exact v2WholeFile_inv _ _ _ _ h
      · rw [if_neg ha]
        exact v2Anchored_inv _ _ _ _ _ h

mutual

theorem processTocItem_inv :
    ∀ (bk : Book) (n : TocNode) (st : V2State),
      V2Inv st → V2Inv (processTocItem bk n st)
  | bk, TocNode.link t h, st, hinv => by
    simp only [processTocItem]
    by_cases hh : h = []
    · rw [if_pos hh]; exact hinv
    · rw [if_neg hh]; exact processSingleTocEntry_inv bk t h st hinv
  | bk, TocNode.sect t h cs, st, hinv => by
    simp only [processTocItem]
    refine processTocItemList_inv bk cs _ ?_
    by_cases hh : h = []
    · rw [if_pos hh]; exact hinv
    · rw [if_neg hh]; exact processSingleTocEntry_inv bk t h st hinv

theorem processTocItemList_inv :
    ∀ (bk : Book) (l : List TocNode) (st : V2State),
      V2Inv st → V2Inv (processTocItemList bk l st)
  | _, [], _, hinv => by simpa only [processTocItemList] using hinv
  | bk, n :: rest, st, hinv => by
    simp only [processTocItemList]
    exact processTocItemList_inv bk rest _ (processTocItem_inv bk n st hinv)

end

set_option maxRecDepth 8000 in
/-- C2 counterexample: at an archive whose navigation first emits resource
f.html in full (no fragment) and then names fragment a of the same
resource, the v2 assembler emits a second chapter for the fragment entry
(its anchored slice exceeds 500 characters) instead of skipping it. -/
theorem c2_counterexample :
    (extract_from_toc_standard bk2).map Chapter.identifier
      = [str "f.html", str "f.html#a"] := by decide

/-- C2 (amended): the v2 assembler never emits two chapters with the same
identifier, where the identifier encodes the (resource, fragment) pair —
the file name for a whole-resource chapter, file#fragment for an anchored
chapter — so repeats of an already-consumed pair are skipped silently.
However, once a resource has been emitted in full, a later fragment-bearing
entry into that resource is still emitted whenever its anchor resolves to
more than 500 characters; and the v1 assembler performs no deduplication at
all. -/
theorem c2_amended (bk : Book) :
    ((extract_from_toc_standard bk).map Chapter.identifier).Nodup :=
  (processTocItemList_inv bk bk.toc ⟨[], []⟩ ⟨by simp, by simp⟩).1

/-- Witness for the amended C2 at the bk2 archive. -/
theorem c2_amended_witness :
    ((extract_from_toc_standard bk2).map Chapter.identifier).Nodup :=
  c2_amended bk2

/-! ### Claim C6: contents of the final list are non-empty -/

theorem toc_go_content_ne (bk : Book) :
    ∀ (entries : List (List Char × List Char)) (acc cs : List Chapter),
      (∀ ch ∈ acc, ch.content ≠ []) →
      extract_from_toc_go bk entries acc = Except.ok cs →
      ∀ ch ∈ cs, ch.content ≠ [] := by
  intro entries
  induction entries with
  | nil =>
    intro acc cs hacc h
    simp only [extract_from_toc_go] at h
    injection h with h
    subst h
    exact hacc
  | cons e rest ih =>
    intro acc cs hacc h
    obtain ⟨title, href⟩ := e
    simp only [extract_from_toc_go] at h
    cases hg : get_item_content bk href (nextHrefOf rest) with
    | error u => rw [hg] at h; exact absurd h (by simp)
    | ok copt =>
      rw [hg] at h
      cases copt with
      | none => exact ih acc cs hacc h
      | some content =>
        dsimp only at h
        by_cases hc : content = []
        · rw [if_pos hc] at h
          exact ih acc cs hacc h
        · rw [if_neg hc] at h
          refine ih _ cs ?_ h
          intro ch hch
          rw [List.mem_append] at hch
          rcases hch with hch | hch
          · exact hacc ch hch
          · rw [List.mem_singleton] at hch
            subst hch
            exact hc

theorem spine_go_content_ne (bk : Book) :
    ∀ (l : List (List Char × Bool)) (acc : List Chapter),
      (∀ ch ∈ acc, ch.content ≠ []) →
      ∀ ch ∈ extract_from_spine_go bk l acc, ch.content ≠ [] := by
  intro l
  induction l with
  | nil => intro acc hacc; simpa only [extract_from_spine_go] using hacc
  | cons e rest ih =>
    intro acc hacc
    obtain ⟨iid, lin⟩ := e
    simp only [extract_from_spine_go]
    cases findItemById bk iid with
    | none => exact ih acc hacc
    | some it =>
      dsimp only
      by_cases htype : it.itype = ItemType.document
      · rw [if_pos htype]
        cases it.contentUtf8 with
        | none => exact ih acc hacc
        | some content =>
          dsimp only
          by_cases hblank : trimWS content = []
          · rw [if_pos hblank]; exact ih acc hacc
          · rw [if_neg hblank]
            refine ih _ ?_
            intro ch hch
            rw [List.mem_append] at hch
            rcases hch with hch | hch
            · exact hacc ch hch
            · rw [List.mem_singleton] at hch
              subst hch
              intro hcontra
              apply hblank
              rw [show content = [] from hcontra]
              rfl
      · rw [if_neg htype]; exact ih acc hacc

theorem buildHtml_content_ne (content : List Char) :
    ∀ (l : List (Nat × Nat × Char × List Char)) (i : Nat),
      ∀ ch ∈ buildHtmlChapters content l i, ch.content ≠ [] := by
  intro l
  induction l with
  | nil => intro i ch hch; simp [buildHtmlChapters] at hch
  | cons e rest ih =>
    intro i ch hch
    obtain ⟨s, l0, d, t⟩ := e
    simp only [buildHtmlChapters] at hch
    rw [List.mem_append] at hch
    rcases hch with hch | hch
    · by_cases hcc : trimWS (sliceList content s (nextStartOf content rest)) = []
      · rw [if_pos hcc] at hch
        simp at hch
      · rw [if_neg hcc] at hch
        rw [List.mem_singleton] at hch
        subst hch
        exact hcc
    · exact ih (i + 1) ch hch

theorem split_html_content_ne (content : List Char) :
    ∀ ch ∈ split_by_html_headings content, ch.content ≠ [] := by
  intro ch hch
  simp only [split_by_html_headings] at hch
  split at hch
  · simp at hch
  · split at hch
    · exact buildHtml_content_ne content _ 0 ch hch
    · simp at hch

theorem textFlush_content_ne (st : TextState)
    (h : ∀ ch ∈ st.chapters, ch.content ≠ []) :
    ∀ ch ∈ textFlush st, ch.content ≠ [] := by
  intro ch hch
  simp only [textFlush] at hch
  split at hch
  · exact h ch hch
  · next hcc =>
    rw [List.mem_append] at hch
    rcases hch with hch | hch
    · exact h ch hch
    · rw [List.mem_singleton] at hch
      subst hch
      exact hcc

theorem textStep_content_ne (st : TextState) (line : List Char)
    (h : ∀ ch ∈ st.chapters, ch.content ≠ []) :
    ∀ ch ∈ (textStep st line).chapters, ch.content ≠ [] := by
  intro ch hch
  simp only [textStep] at hch
  split at hch
  · split at hch
    · exact h ch hch
    · exact textFlush_content_ne st h ch hch
  · exact h ch hch

theorem textLineStep_content_ne (st : TextState) (line : List Char)
    (h : ∀ ch ∈ st.chapters, ch.content ≠ []) :
    ∀ ch ∈ (textLineStep st line).chapters, ch.content ≠ [] := by
  unfold textLineStep
  by_cases hl : trimWS line = []
  · rw [if_pos hl]; exact h
  · rw [if_neg hl]; exact textStep_content_ne st (trimWS line) h

theorem fold_text_content_ne :
    ∀ (lines : List (List Char)) (st : TextState),
      (∀ ch ∈ st.chapters, ch.content ≠ []) →
      ∀ ch ∈ (lines.foldl textLineStep st).chapters, ch.content ≠ [] := by
  intro lines
  induction lines with
  | nil => intro st h; simpa using h
  | cons line rest ih =>
    intro st h
    rw [List.foldl_cons]
    exact ih _ (textLineStep_content_ne st line h)

theorem textChaptersOf_content_ne (content : List Char) :
    ∀ ch ∈ textChaptersOf content, ch.content ≠ [] := by
  intro ch hch
  simp only [textChaptersOf] at hch
  split at hch
  · exact fold_text_content_ne _ _ (by simp) ch hch
  · exact textFlush_content_ne _ (fold_text_content_ne _ _ (by simp)) ch hch

theorem split_text_content_ne (content : List Char) :
    ∀ ch ∈ split_by_text_patterns content, ch.content ≠ [] := by
  intro ch hch
  simp only [split_by_text_patterns] at hch
  split at hch
  · exact textChaptersOf_content_ne content ch hch
  · simp at hch

theorem scbh_content_ne (content : List Char) (hc : content ≠ []) :
    ∀ ch ∈ split_content_by_headings content, ch.content ≠ [] := by
  intro ch hch
  simp only [split_content_by_headings] at hch
  split at hch
  · split at hch
    · rw [List.mem_singleton] at hch
      subst hch
      exact hc
    · exact split_text_content_ne content ch hch
  · exact split_html_content_ne content ch hch

theorem postprocess_content_ne (cs : List Chapter)
    (h : ∀ ch ∈ cs, ch.content ≠ []) :
    ∀ ch ∈ postprocessChapters cs, ch.content ≠ [] := by
  intro ch hch
  cases cs with
  | nil => simp [postprocessChapters] at hch
  | cons c0 tl =>
    simp only [postprocessChapters] at hch
    split at hch
    · have hc0 : c0.content ≠ [] := h c0 (by simp)
      split at hch
      · exact h ch hch
      · exact scbh_content_ne c0.content hc0 ch hch
    · exact h ch hch

set_option maxRecDepth 8000 in
set_option maxHeartbeats 2000000 in
/-- C6 counterexample: at an archive whose navigation entries repeat the
href f.html around a distinct g.html entry, the final chapter list carries
the identifier f.html twice — the no-duplicate-identifier half of the
invariant fails on the code. -/
theorem c6_counterexample :
    ¬ ((okChapters (get_chapters bk6)).map Chapter.identifier).Nodup := by decide

/-- C6 (amended): every chapter in the final list produced by a successful
v1 assembly run has non-empty content (so in particular content is
non-empty whenever the source document is); identifiers, however, are not
pairwise distinct in general, since two navigation entries sharing an href
produce two chapters with the same identifier. -/
theorem c6_amended (bk : Book) (cs : List Chapter)
    (h : get_chapters bk = Except.ok cs) :
    ∀ ch ∈ cs, ch.content ≠ [] := by
  unfold get_chapters at h
  cases htoc : bk.toc with
  | nil =>
    rw [htoc] at h
    dsimp only at h
    injection h with h
    subst h
    exact postprocess_content_ne _ (spine_go_content_ne bk bk.spine [] (by simp))
  | cons n rest =>
    rw [htoc] at h
    dsimp only at h
    cases hx : extract_from_toc bk with
    | error e => rw [hx] at h; exact absurd h (by simp)
    | ok cs' =>
      rw [hx] at h
      dsimp only at h
      injection h with h
      subst h
      exact postprocess_content_ne cs'
        (toc_go_content_ne bk (collectItemsList bk.toc) [] cs' (by simp) hx)

/-- Witness for the amended C6 at the spine-only archive. -/
theorem c6_amended_witness :
    (⟨str "Chapter 1", str "<p>x</p>", str "a"⟩ : Chapter).content ≠ [] :=
  c6_amended bkSp [⟨str "Chapter 1", str "<p>x</p>", str "a"⟩] rfl
    ⟨str "Chapter 1", str "<p>x</p>", str "a"⟩ (by simp)

end EpubExport
